import Mathlib

/-!
Verification of the Velocity Rush real-time simulation core against its
natural-language specification.  The JavaScript sources are shallowly
embedded over exact rational arithmetic: pure numeric code becomes Lean
functions on `ℚ`, the checkpoint/lap state machine becomes explicit state
passing, and callback invocations are recorded as event lists.  Host math
primitives that are not rational (square root, trigonometry, pi) are
supplied as an explicit `MathFns` parameter so theorems can quantify over
them.
-/

namespace VelocityRush

unseal Rat.add Rat.sub Rat.mul Rat.inv

/-- Rational 3D vector, embedding `THREE.Vector3` with exact arithmetic. -/
structure Vec3 where
  x : ℚ
  y : ℚ
  z : ℚ
deriving DecidableEq

/-- The zero vector, `new Vector3()`. -/
def Vec3.zero : Vec3 := ⟨0, 0, 0⟩

/-- Componentwise sum, `Vector3.add`. -/
def Vec3.add (a b : Vec3) : Vec3 := ⟨a.x + b.x, a.y + b.y, a.z + b.z⟩

/-- Componentwise difference, `Vector3.sub` / `subVectors`. -/
def Vec3.sub (a b : Vec3) : Vec3 := ⟨a.x - b.x, a.y - b.y, a.z - b.z⟩

/-- Scalar multiple, `Vector3.multiplyScalar`. -/
def Vec3.smul (k : ℚ) (v : Vec3) : Vec3 := ⟨k * v.x, k * v.y, k * v.z⟩

/-- Dot product, `Vector3.dot`. -/
def Vec3.dot (a b : Vec3) : ℚ := a.x * b.x + a.y * b.y + a.z * b.z

/-- Squared length, `Vector3.lengthSq`. -/
def Vec3.lengthSq (v : Vec3) : ℚ := v.dot v

/-- Squared distance, `Vector3.distanceToSquared`. -/
def Vec3.distSq (a b : Vec3) : ℚ := (a.sub b).lengthSq

/-- Negation, `Vector3.negate`. -/
def Vec3.neg (v : Vec3) : Vec3 := ⟨-v.x, -v.y, -v.z⟩

/-!
## Checkpoint/Lap state machine

Embedding of `CheckpointSystem` (src/unnamed/part_001).  The
visualization-only code (`createCheckpointVisualizations`,
`createCheckerboardTexture`, `addToScene`, the material-color updates in
`checkpointPassed`) has no effect on race state and is omitted.  The
callbacks `onLapCompleted` / `onCheckpointPassed` / `onRaceFinished` are
modelled by returning the list of events fired, in invocation order.
`performance.now()` is an input (`now`, in milliseconds).
-/

/-- A race checkpoint: `{position, isStartFinish}`. -/
structure Checkpoint where
  position : Vec3
  isStartFinish : Bool
deriving DecidableEq

/-- One callback invocation of the checkpoint system, with its payload. -/
inductive RaceEvent
  | checkpointPassed (index : ℕ)
  | lapCompleted (lap : ℕ) (lapTime : ℚ) (bestLapTime : Option ℚ)
  | raceFinished (totalTime : ℚ) (lapTimes : List ℚ) (bestLapTime : Option ℚ)
deriving DecidableEq

/-- State of `CheckpointSystem` (the fields mutated by the race logic). -/
structure CheckpointSystem where
  checkpoints : List Checkpoint
  currentCheckpoint : ℕ
  laps : ℕ
  totalLaps : ℕ
  lapTimes : List ℚ
  currentLapTime : ℚ
  bestLapTime : Option ℚ
  raceStartTime : ℚ
  raceTime : ℚ
  isRaceStarted : Bool
  isRaceFinished : Bool
deriving DecidableEq

/-- `CheckpointSystem.reset`. -/
def CheckpointSystem.reset (s : CheckpointSystem) : CheckpointSystem :=
  { s with currentCheckpoint := 0, laps := 0, lapTimes := [], currentLapTime := 0,
           raceStartTime := 0, raceTime := 0, isRaceStarted := false, isRaceFinished := false }

/-- `CheckpointSystem.init(checkpoints, options)`: loads the checkpoint list and
lap count, then resets.  JS evaluates `options.totalLaps || 3`, so a lap count
of zero falls back to the default 3. -/
def CheckpointSystem.initSys (checkpoints : List Checkpoint) (totalLaps : ℕ) :
    CheckpointSystem :=
  CheckpointSystem.reset
    { checkpoints := checkpoints
      currentCheckpoint := 0
      laps := 0
      totalLaps := if totalLaps = 0 then 3 else totalLaps
      lapTimes := []
      currentLapTime := 0
      bestLapTime := none
      raceStartTime := 0
      raceTime := 0
      isRaceStarted := false
      isRaceFinished := false }

/-- `CheckpointSystem.startRace()`: reset, record the start timestamp, begin. -/
def CheckpointSystem.startRace (s : CheckpointSystem) (now : ℚ) : CheckpointSystem :=
  { s.reset with raceStartTime := now, isRaceStarted := true }

/-- `CheckpointSystem.isVehicleAtCheckpoint`: `distanceTo(checkpoint.position) < 10`,
embedded sqrt-free as squared distance `< 100` (equivalent for exact
nonnegative arithmetic). -/
def isVehicleAtCheckpoint (vehiclePosition : Vec3) (cp : Checkpoint) : Bool :=
  decide (Vec3.distSq vehiclePosition cp.position < 100)

/-- `CheckpointSystem.lapCompleted()`: push the lap time, update the best lap,
reset the running lap clock, fire `onLapCompleted`. -/
def CheckpointSystem.lapCompleted (s : CheckpointSystem) :
    CheckpointSystem × List RaceEvent :=
  let best : Option ℚ :=
    match s.bestLapTime with
    | none => some s.currentLapTime
    | some b => if s.currentLapTime < b then some s.currentLapTime else some b
  ({ s with lapTimes := s.lapTimes ++ [s.currentLapTime], bestLapTime := best,
            currentLapTime := 0 },
   [RaceEvent.lapCompleted s.laps s.currentLapTime best])

/-- `CheckpointSystem.raceFinished()`: mark finished, fire `onRaceFinished`. -/
def CheckpointSystem.raceFinished (s : CheckpointSystem) :
    CheckpointSystem × List RaceEvent :=
  ({ s with isRaceFinished := true },
   [RaceEvent.raceFinished s.raceTime s.lapTimes s.bestLapTime])

/-- `CheckpointSystem.checkpointPassed()`: close a lap when re-crossing
start/finish with `laps > 0`, fire `onCheckpointPassed`, advance the index
modulo the checkpoint count, count a lap on wrap-around and finish the race
once `laps >= totalLaps`.  The `none` branch is unreachable: the caller
(`update`) only invokes this when the current entry exists. -/
def CheckpointSystem.checkpointPassed (s : CheckpointSystem) :
    CheckpointSystem × List RaceEvent :=
  match s.checkpoints[s.currentCheckpoint]? with
  | none => (s, [])
  | some cp =>
    let lapStep : CheckpointSystem × List RaceEvent :=
      if cp.isStartFinish && decide (0 < s.laps) then s.lapCompleted else (s, [])
    let s1 := lapStep.1
    let cpEvent := RaceEvent.checkpointPassed s1.currentCheckpoint
    let s2 := { s1 with currentCheckpoint := (s1.currentCheckpoint + 1) % s1.checkpoints.length }
    if s2.currentCheckpoint = 0 then
      let s3 := { s2 with laps := s2.laps + 1 }
      if s3.totalLaps ≤ s3.laps then
        (s3.raceFinished.1, lapStep.2 ++ [cpEvent] ++ s3.raceFinished.2)
      else (s3, lapStep.2 ++ [cpEvent])
    else (s2, lapStep.2 ++ [cpEvent])

/-- `CheckpointSystem.update(deltaTime, vehiclePosition)`: no-op unless racing;
advance race and lap clocks, then test proximity against the current
checkpoint (skipped when the entry is absent, mirroring the
`if (checkpoint && ...)` guard). -/
def CheckpointSystem.update (s : CheckpointSystem) (deltaTime now : ℚ)
    (vehiclePosition : Vec3) : CheckpointSystem × List RaceEvent :=
  if !s.isRaceStarted || s.isRaceFinished then (s, [])
  else
    let s1 := { s with raceTime := (now - s.raceStartTime) / 1000,
                       currentLapTime := s.currentLapTime + deltaTime }
    match s1.checkpoints[s1.currentCheckpoint]? with
    | none => (s1, [])
    | some cp =>
      if isVehicleAtCheckpoint vehiclePosition cp then s1.checkpointPassed
      else (s1, [])

/-- Fold `update` over a list of `(deltaTime, now, position)` inputs,
concatenating the fired events. -/
def CheckpointSystem.runUpdates (s : CheckpointSystem)
    (inputs : List (ℚ × ℚ × Vec3)) : CheckpointSystem × List RaceEvent :=
  inputs.foldl
    (fun acc inp =>
      ((acc.1.update inp.1 inp.2.1 inp.2.2).1,
       acc.2 ++ (acc.1.update inp.1 inp.2.1 inp.2.2).2))
    (s, [])

/-!
## The countdown-to-finish scenario (claims C1, C7)

Four checkpoints 20 units apart on the x-axis, index 0 the start/finish,
`totalLaps = 2`, vehicle positions exactly at checkpoints 0,1,2,3,0,1,2,3,0
and a 10th update back at checkpoint 1's position-neighbourhood (any
position: the race is already finished).  Each update advances the lap clock
by 1 s and the wall clock by 1000 ms.
-/

/-- Position of scenario checkpoint `i`: 20 units apart, farther than the
10-unit proximity threshold. -/
def cpPos (i : ℕ) : Vec3 := ⟨20 * i, 0, 0⟩

/-- The scenario's four checkpoints, index 0 the single start/finish entry. -/
def scenarioCheckpoints : List Checkpoint :=
  (List.range 4).map (fun i => ⟨cpPos i, decide (i = 0)⟩)

/-- The scenario machine right after `init` (totalLaps = 2) and `startRace()`
at wall-clock 0 ms. -/
def scenarioStart : CheckpointSystem :=
  (CheckpointSystem.initSys scenarioCheckpoints 2).startRace 0

/-- The first `n` scenario inputs: update `j` uses `deltaTime = 1` s,
`now = 1000·j` ms and the position of checkpoint `j-1 mod 4`. -/
def scenarioInputs (n : ℕ) : List (ℚ × ℚ × Vec3) :=
  (List.range n).map (fun (j : ℕ) => (1, (((1000 * (j + 1) : ℕ)) : ℚ), cpPos (j % 4)))

/-- Scenario state and cumulative events after the first `n` updates. -/
def scenarioAfter (n : ℕ) : CheckpointSystem × List RaceEvent :=
  scenarioStart.runUpdates (scenarioInputs n)

/-- C1: the claim expects `lapTimes` to hold exactly 2 entries after the nine
in-order checkpoint crossings; the code records only 1 — the race finishes on
the wrap-around after the 8th crossing (checkpoint 3 of lap 2), before the
start/finish line is re-crossed, so the final lap's time is never pushed. -/
theorem C1_counterexample :
    (scenarioAfter 9).1.lapTimes.length = 1 ∧ (1 : ℕ) ≠ 2 := by
  constructor
  · decide
  · decide

/-!
## First-crossing guard (claim C7)
-/

/-- Result (state and events) of the very first `update` after `init` +
`startRace()`, at wall-clock `startNow`, with update inputs `dt`, `now`, `pos`. -/
def afterFirstCross (cps : List Checkpoint) (totalLaps : ℕ) (startNow dt now : ℚ)
    (pos : Vec3) : CheckpointSystem × List RaceEvent :=
  ((CheckpointSystem.initSys cps totalLaps).startRace startNow).update dt now pos

/-- C7 (amended): with at least two checkpoints and the start/finish at index 0,
the very first crossing of start/finish closes no lap: the laps counter stays 0,
`lapTimes` stays empty, and the only event fired is `onCheckpointPassed` for
index 0 (no lap-completed event). -/
theorem C7_amended (c : Checkpoint) (rest : List Checkpoint) (totalLaps : ℕ)
    (startNow dt now : ℚ) (pos : Vec3)
    (hsf : c.isStartFinish = true) (hrest : rest ≠ [])
    (hnear : isVehicleAtCheckpoint pos c = true) :
    (afterFirstCross (c :: rest) totalLaps startNow dt now pos).1.laps = 0 ∧
    (afterFirstCross (c :: rest) totalLaps startNow dt now pos).1.lapTimes = [] ∧
    (afterFirstCross (c :: rest) totalLaps startNow dt now pos).2 =
      [RaceEvent.checkpointPassed 0] := by
  obtain ⟨r, rs, rfl⟩ := List.exists_cons_of_ne_nil hrest
  have hmod : (0 + 1) % (c :: r :: rs).length = 1 := by
    simp [List.length_cons]
  refine ⟨?_, ?_, ?_⟩ <;>
    simp [afterFirstCross, CheckpointSystem.update, CheckpointSystem.startRace,
          CheckpointSystem.initSys, CheckpointSystem.reset,
          CheckpointSystem.checkpointPassed, hnear, hsf, hmod]

/-- Witness for C7_amended: a two-checkpoint track, vehicle at the start/finish
position for the first update. -/
theorem C7_amended_witness :
    (afterFirstCross [⟨Vec3.zero, true⟩, ⟨cpPos 1, false⟩] 2 0 1 5 Vec3.zero).1.laps = 0 ∧
    (afterFirstCross [⟨Vec3.zero, true⟩, ⟨cpPos 1, false⟩] 2 0 1 5 Vec3.zero).1.lapTimes = [] ∧
    (afterFirstCross [⟨Vec3.zero, true⟩, ⟨cpPos 1, false⟩] 2 0 1 5 Vec3.zero).2 =
      [RaceEvent.checkpointPassed 0] :=
  C7_amended ⟨Vec3.zero, true⟩ [⟨cpPos 1, false⟩] 2 0 1 5 Vec3.zero (by decide)
    (by decide) (by decide)

/-- C7 counterexample: with a single checkpoint (the start/finish alone, a list
with exactly one start/finish entry), the very first crossing wraps the index
and increments the laps counter to 1, contradicting the claim that the laps
counter stays 0 at the first start/finish crossing.  (No lap is closed and no
lap event fires even here.) -/
theorem C7_counterexample :
    (afterFirstCross [⟨Vec3.zero, true⟩] 3 0 1 5 Vec3.zero).1.laps = 1 ∧
    (1 : ℕ) ≠ 0 ∧
    (afterFirstCross [⟨Vec3.zero, true⟩] 3 0 1 5 Vec3.zero).1.lapTimes = [] ∧
    (afterFirstCross [⟨Vec3.zero, true⟩] 3 0 1 5 Vec3.zero).2 =
      [RaceEvent.checkpointPassed 0] := by
  refine ⟨by decide, by decide, by decide, by decide⟩

/-!
## Robustness of `update` when the current checkpoint entry is absent (claim C9)
-/

/-- C9: when the entry at `currentCheckpoint` is absent (in particular when the
checkpoint list is empty), `update` fires no events and leaves every
checkpoint/lap progression field unchanged; while racing it still advances
`raceTime` (recomputed from the wall clock) and `currentLapTime`, and outside
the racing state it is a complete no-op. -/
theorem C9_update_missing_checkpoint (s : CheckpointSystem) (dt now : ℚ) (pos : Vec3)
    (h : s.checkpoints[s.currentCheckpoint]? = none) :
    (s.update dt now pos).2 = [] ∧
    (s.update dt now pos).1.checkpoints = s.checkpoints ∧
    (s.update dt now pos).1.currentCheckpoint = s.currentCheckpoint ∧
    (s.update dt now pos).1.laps = s.laps ∧
    (s.update dt now pos).1.totalLaps = s.totalLaps ∧
    (s.update dt now pos).1.lapTimes = s.lapTimes ∧
    (s.update dt now pos).1.bestLapTime = s.bestLapTime ∧
    (s.update dt now pos).1.raceStartTime = s.raceStartTime ∧
    (s.update dt now pos).1.isRaceStarted = s.isRaceStarted ∧
    (s.update dt now pos).1.isRaceFinished = s.isRaceFinished ∧
    (s.isRaceStarted = true → s.isRaceFinished = false →
      (s.update dt now pos).1.raceTime = (now - s.raceStartTime) / 1000 ∧
      (s.update dt now pos).1.currentLapTime = s.currentLapTime + dt) ∧
    ((s.isRaceStarted = false ∨ s.isRaceFinished = true) → (s.update dt now pos).1 = s) := by
  cases hs : s.isRaceStarted <;> cases hf : s.isRaceFinished <;>
    simp [CheckpointSystem.update, hs, hf, h]

/-- Witness for C9: the machine initialized with an empty checkpoint list and
started, updated at an arbitrary position. -/
theorem C9_update_missing_checkpoint_witness :
    (((CheckpointSystem.initSys [] 2).startRace 0).update 1 2000 (cpPos 1)).2 = [] ∧
    (((CheckpointSystem.initSys [] 2).startRace 0).update 1 2000 (cpPos 1)).1.checkpoints
      = ((CheckpointSystem.initSys [] 2).startRace 0).checkpoints ∧
    (((CheckpointSystem.initSys [] 2).startRace 0).update 1 2000 (cpPos 1)).1.currentCheckpoint
      = ((CheckpointSystem.initSys [] 2).startRace 0).currentCheckpoint ∧
    (((CheckpointSystem.initSys [] 2).startRace 0).update 1 2000 (cpPos 1)).1.laps
      = ((CheckpointSystem.initSys [] 2).startRace 0).laps ∧
    (((CheckpointSystem.initSys [] 2).startRace 0).update 1 2000 (cpPos 1)).1.totalLaps
      = ((CheckpointSystem.initSys [] 2).startRace 0).totalLaps ∧
    (((CheckpointSystem.initSys [] 2).startRace 0).update 1 2000 (cpPos 1)).1.lapTimes
      = ((CheckpointSystem.initSys [] 2).startRace 0).lapTimes ∧
    (((CheckpointSystem.initSys [] 2).startRace 0).update 1 2000 (cpPos 1)).1.bestLapTime
      = ((CheckpointSystem.initSys [] 2).startRace 0).bestLapTime ∧
    (((CheckpointSystem.initSys [] 2).startRace 0).update 1 2000 (cpPos 1)).1.raceStartTime
      = ((CheckpointSystem.initSys [] 2).startRace 0).raceStartTime ∧
    (((CheckpointSystem.initSys [] 2).startRace 0).update 1 2000 (cpPos 1)).1.isRaceStarted
      = ((CheckpointSystem.initSys [] 2).startRace 0).isRaceStarted ∧
    (((CheckpointSystem.initSys [] 2).startRace 0).update 1 2000 (cpPos 1)).1.isRaceFinished
      = ((CheckpointSystem.initSys [] 2).startRace 0).isRaceFinished ∧
    (((CheckpointSystem.initSys [] 2).startRace 0).isRaceStarted = true →
      ((CheckpointSystem.initSys [] 2).startRace 0).isRaceFinished = false →
      (((CheckpointSystem.initSys [] 2).startRace 0).update 1 2000 (cpPos 1)).1.raceTime
        = (2000 - ((CheckpointSystem.initSys [] 2).startRace 0).raceStartTime) / 1000 ∧
      (((CheckpointSystem.initSys [] 2).startRace 0).update 1 2000 (cpPos 1)).1.currentLapTime
        = ((CheckpointSystem.initSys [] 2).startRace 0).currentLapTime + 1) ∧
    ((((CheckpointSystem.initSys [] 2).startRace 0).isRaceStarted = false ∨
      ((CheckpointSystem.initSys [] 2).startRace 0).isRaceFinished = true) →
      (((CheckpointSystem.initSys [] 2).startRace 0).update 1 2000 (cpPos 1)).1
        = (CheckpointSystem.initSys [] 2).startRace 0) :=
  C9_update_missing_checkpoint ((CheckpointSystem.initSys [] 2).startRace 0) 1 2000
    (cpPos 1) (by decide)

/-!
## Reference semantics of `getRaceState()` (claim C2)

`CheckpointSystem.getRaceState` returns an object literal whose scalar fields
are copies but whose `lapTimes` field is `this.lapTimes` — the same JS array
object, not a copy.  To reason about mutation through the returned snapshot we
model the JS heap of arrays explicitly: arrays live in a store (a list of
rational lists) and records hold array references (store indices).
-/

/-- Heap of JS arrays of numbers, addressed by index. -/
abbrev Store : Type := List (List ℚ)

/-- Read the array behind a reference (absent references read as empty). -/
def readArray (store : Store) (ref : ℕ) : List ℚ :=
  (store[ref]?).getD []

/-- `array.push(v)` through a reference: mutates the store in place. -/
def pushArray (store : Store) (ref : ℕ) (v : ℚ) : Store :=
  List.set store ref (readArray store ref ++ [v])

/-- The fields of `CheckpointSystem` read by `getRaceState`, with the
`lapTimes` array held by reference into the store. -/
structure CheckpointSystemRef where
  checkpointCount : ℕ
  currentCheckpoint : ℕ
  laps : ℕ
  totalLaps : ℕ
  currentLapTime : ℚ
  bestLapTime : Option ℚ
  lapTimesRef : ℕ
  raceTime : ℚ
  isRaceStarted : Bool
  isRaceFinished : Bool
deriving DecidableEq

/-- The object literal returned by `CheckpointSystem.getRaceState()`. -/
structure RaceStateSnap where
  currentCheckpoint : ℕ
  totalCheckpoints : ℕ
  currentLap : ℕ
  totalLaps : ℕ
  currentLapTime : ℚ
  bestLapTime : Option ℚ
  lapTimesRef : ℕ
  raceTime : ℚ
  isRaceStarted : Bool
  isRaceFinished : Bool
deriving DecidableEq

/-- `CheckpointSystem.getRaceState()`: scalar fields are copied into a fresh
object, but `lapTimes: this.lapTimes` copies only the array reference. -/
def CheckpointSystemRef.getRaceState (s : CheckpointSystemRef) : RaceStateSnap :=
  { currentCheckpoint := s.currentCheckpoint
    totalCheckpoints := s.checkpointCount
    currentLap := s.laps + 1
    totalLaps := s.totalLaps
    currentLapTime := s.currentLapTime
    bestLapTime := s.bestLapTime
    lapTimesRef := s.lapTimesRef
    raceTime := s.raceTime
    isRaceStarted := s.isRaceStarted
    isRaceFinished := s.isRaceFinished }

/-- Concrete machine for the C2 counterexample: one recorded lap time `5`,
stored in heap cell 0. -/
def c2Machine : CheckpointSystemRef :=
  { checkpointCount := 4, currentCheckpoint := 1, laps := 1, totalLaps := 2,
    currentLapTime := 2, bestLapTime := some 5, lapTimesRef := 0,
    raceTime := 7, isRaceStarted := true, isRaceFinished := false }

/-- The heap for the C2 counterexample: cell 0 holds the array `[5]`. -/
def c2Store : Store := [[5]]

/-- C2 counterexample: take two snapshots with no intervening update, then push
`7` onto the first snapshot's `lapTimes`.  The mutation is visible through the
second snapshot AND through the machine's internal state, because
`getRaceState` copies the array reference, not the array — the snapshot is not
deep/independent as claimed. -/
theorem C2_counterexample :
    c2Machine.getRaceState = c2Machine.getRaceState ∧
    readArray (pushArray c2Store c2Machine.getRaceState.lapTimesRef 7)
        c2Machine.getRaceState.lapTimesRef = [5, 7] ∧
    readArray (pushArray c2Store c2Machine.getRaceState.lapTimesRef 7)
        c2Machine.lapTimesRef = [5, 7] ∧
    readArray c2Store c2Machine.lapTimesRef = [5] ∧
    ([5, 7] : List ℚ) ≠ [5] := by
  refine ⟨rfl, by decide, by decide, by decide, by decide⟩

/-- C2 (amended): `getRaceState()` is a shallow snapshot.  Two calls with no
intervening update yield equal snapshots and the scalar fields are copies taken
at call time, but the `lapTimes` field aliases the machine's internal array:
any push through a snapshot's `lapTimes` reference is visible through the
machine's own reference (and hence through every other snapshot). -/
theorem C2_amended (s : CheckpointSystemRef) :
    s.getRaceState = s.getRaceState ∧
    s.getRaceState.lapTimesRef = s.lapTimesRef ∧
    s.getRaceState.currentLapTime = s.currentLapTime ∧
    s.getRaceState.raceTime = s.raceTime ∧
    (∀ (store : Store) (v : ℚ), s.lapTimesRef < store.length →
      readArray (pushArray store s.getRaceState.lapTimesRef v) s.lapTimesRef =
        readArray store s.lapTimesRef ++ [v]) := by
  refine ⟨rfl, rfl, rfl, rfl, ?_⟩
  intro store v hv
  have href : s.getRaceState.lapTimesRef = s.lapTimesRef := rfl
  rw [href]
  unfold pushArray readArray
  rw [List.getElem?_set_eq_of_lt _ hv]
  rfl

/-- Witness for C2_amended at the concrete machine and store of the
counterexample. -/
theorem C2_amended_witness :
    (c2Machine.getRaceState = c2Machine.getRaceState ∧
     c2Machine.getRaceState.lapTimesRef = c2Machine.lapTimesRef ∧
     c2Machine.getRaceState.currentLapTime = c2Machine.currentLapTime ∧
     c2Machine.getRaceState.raceTime = c2Machine.raceTime ∧
     (∀ (store : Store) (v : ℚ), c2Machine.lapTimesRef < store.length →
       readArray (pushArray store c2Machine.getRaceState.lapTimesRef v)
           c2Machine.lapTimesRef =
         readArray store c2Machine.lapTimesRef ++ [v])) ∧
    c2Machine.lapTimesRef < c2Store.length :=
  ⟨C2_amended c2Machine, by decide⟩

/-!
## Collision system (claims C3, C4)

Embedding of `CollisionSystem` (renderer.js, second part): broad-phase
sphere-sphere, narrow-phase box-box, default elastic response.  Bounding boxes
and spheres are recomputed each tick from mesh geometry (`setFromObject`),
which is external; colliders here carry their current bounds as data.  Host
math functions that are not rational (`Math.sqrt` for `Vector3.normalize`,
trigonometry and pi for quaternions and wheels) are an explicit parameter. -/

/-- Abstract host math primitives (`Math.sqrt`, `Math.sin`/`Math.cos` of the
half angle as used by `Quaternion.setFromAxisAngle`, and `Math.PI`). -/
structure MathFns where
  sqrt : ℚ → ℚ
  sinHalf : ℚ → ℚ
  cosHalf : ℚ → ℚ
  pi : ℚ

/-- A concrete instantiation of the host math functions used by witnesses and
counterexamples (any concrete choice works for the statements that use it). -/
def mfId : MathFns :=
  { sqrt := id, sinHalf := fun _ => 0, cosHalf := fun _ => 1, pi := 355 / 113 }

/-- `Vector3.normalize`: divide by `length() || 1`. -/
def Vec3.normalizeW (mf : MathFns) (v : Vec3) : Vec3 :=
  let l := mf.sqrt v.lengthSq
  v.smul (1 / (if l = 0 then 1 else l))

/-- `Vector3.reflect(normal)`: subtract `normal * (2 * this.dot(normal))`. -/
def Vec3.reflect (v n : Vec3) : Vec3 := v.sub (n.smul (2 * (v.dot n)))

/-- Axis-aligned bounding box, `THREE.Box3`. -/
structure Box3 where
  min : Vec3
  max : Vec3
deriving DecidableEq

/-- `Box3.intersectsBox`: not separated on any axis (touching counts). -/
def boxIntersects (a b : Box3) : Bool :=
  !(decide (b.max.x < a.min.x) || decide (b.min.x > a.max.x) ||
    decide (b.max.y < a.min.y) || decide (b.min.y > a.max.y) ||
    decide (b.max.z < a.min.z) || decide (b.min.z > a.max.z))

/-- `userData.physics`: velocity plus optional mass (JS `undefined` mass is
`none`). -/
structure PhysicsData where
  velocity : Vec3
  mass : Option ℚ
deriving DecidableEq

/-- A registered collider: current bounding box, bounding sphere and optional
physics metadata. -/
structure ColliderObj where
  boundingBox : Box3
  sphereCenter : Vec3
  sphereRadius : ℚ
  physics : Option PhysicsData
deriving DecidableEq

/-- `Sphere.intersectsSphere`: squared center distance at most the squared
radius sum. -/
def sphereIntersects (a b : ColliderObj) : Bool :=
  decide (Vec3.distSq b.sphereCenter a.sphereCenter ≤
    (a.sphereRadius + b.sphereRadius) * (a.sphereRadius + b.sphereRadius))

/-- Velocity stored in a collider's physics metadata (zero when absent). -/
def velOf (c : ColliderObj) : Vec3 :=
  match c.physics with
  | some p => p.velocity
  | none => Vec3.zero

/-- `CollisionSystem.defaultCollisionResponse(self, other, point, normal)`:
requires physics on both sides; reads `m1 = self.mass || 1` and
`m2 = other.mass || Infinity` (a missing or zero mass on `other` selects the
static branch, the elastic two-body exchange otherwise), scales the results by
the energy-loss factor 0.8 (4/5), or reflects `self`'s velocity about the
normal scaled by 0.5 (1/2) in the static branch.  The collision point is
unused.  Returns the pair (self, other) with updated velocities. -/
def defaultCollisionResponse (self other : ColliderObj) (collisionNormal : Vec3) :
    ColliderObj × ColliderObj :=
  match self.physics, other.physics with
  | some p1, some p2 =>
    let v1 := p1.velocity
    let v2 := p2.velocity
    let m1 : ℚ := match p1.mass with | none => 1 | some m => if m = 0 then 1 else m
    let staticCase : ColliderObj × ColliderObj :=
      ({ self with physics := some { p1 with velocity := (v1.reflect collisionNormal).smul (1/2) } },
       other)
    match p2.mass with
    | none => staticCase
    | some m2 =>
      if m2 = 0 then staticCase
      else
        let v1Final := v1.sub (collisionNormal.smul
          (2 * m2 / (m1 + m2) * ((v1.sub v2).dot collisionNormal)))
        let v2Final := v2.sub (collisionNormal.smul
          (2 * m1 / (m1 + m2) * ((v2.sub v1).dot collisionNormal)))
        ({ self with physics := some { p1 with velocity := v1Final.smul (4/5) } },
         { other with physics := some { p2 with velocity := v2Final.smul (4/5) } })
  | _, _ => (self, other)

/-- The collision point and normal as delivered to one collision callback. -/
structure CollisionCall where
  point : Vec3
  normal : Vec3
deriving DecidableEq

/-- One `CollisionSystem.update` pass restricted to two dynamic colliders that
both carry the default response (the `onCollision || defaultCollisionResponse`
fallback).  On a broad- and narrow-phase hit, the code constructs
`collisionPoint = new Vector3()` and then computes the sphere-center midpoint
WITHOUT assigning it (the `.add(...).multiplyScalar(0.5)` result is discarded),
so the zero vector is what both callbacks receive; the normal is the
normalized direction from A's sphere center to B's, negated for B's callback.
Both callbacks run: first A's (self = A), then B's (self = B) on the already
updated velocities.  Returns the updated pair and the invocation log. -/
def collisionUpdatePairDefault (mf : MathFns) (objA objB : ColliderObj) :
    (ColliderObj × ColliderObj) × List CollisionCall :=
  if sphereIntersects objA objB && boxIntersects objA.boundingBox objB.boundingBox then
    let collisionPoint := Vec3.zero
    let collisionNormal := Vec3.normalizeW mf (objB.sphereCenter.sub objA.sphereCenter)
    let r1 := defaultCollisionResponse objA objB collisionNormal
    let r2 := defaultCollisionResponse r1.2 r1.1 collisionNormal.neg
    ((r2.2, r2.1),
     [⟨collisionPoint, collisionNormal⟩, ⟨collisionPoint, collisionNormal.neg⟩])
  else ((objA, objB), [])

/-- One `CollisionSystem.update` pass for a dynamic collider against a static
collider: same two-phase test and discarded midpoint; only the dynamic side's
callback (the default response) is invoked. -/
def collisionUpdateDynStatic (mf : MathFns) (objA staticObj : ColliderObj) :
    ColliderObj × List CollisionCall :=
  if sphereIntersects objA staticObj && boxIntersects objA.boundingBox staticObj.boundingBox then
    let collisionPoint := Vec3.zero
    let collisionNormal := Vec3.normalizeW mf (staticObj.sphereCenter.sub objA.sphereCenter)
    ((defaultCollisionResponse objA staticObj collisionNormal).1,
     [⟨collisionPoint, collisionNormal⟩])
  else (objA, [])

/-- Modelled from the spec wording, for comparison with the embedded code: the
collision point the spec describes is the midpoint of the two colliders'
bounding-sphere centers. -/
def specMidpoint (a b : ColliderObj) : Vec3 :=
  (a.sphereCenter.add b.sphereCenter).smul (1/2)

/-- Concrete overlapping dynamic collider A for C3/C4. -/
def c3ObjA : ColliderObj :=
  { boundingBox := ⟨⟨-3, -3, -3⟩, ⟨3, 3, 3⟩⟩, sphereCenter := ⟨0, 0, 0⟩,
    sphereRadius := 3, physics := some ⟨⟨2, 0, 0⟩, some 1⟩ }

/-- Concrete overlapping dynamic collider B for C3/C4. -/
def c3ObjB : ColliderObj :=
  { boundingBox := ⟨⟨1, -3, -3⟩, ⟨7, 3, 3⟩⟩, sphereCenter := ⟨4, 0, 0⟩,
    sphereRadius := 3, physics := some ⟨⟨0, 0, 0⟩, some 1⟩ }

/-- Concrete overlapping static collider for C3 (no physics metadata). -/
def c3Static : ColliderObj :=
  { boundingBox := ⟨⟨1, -3, -3⟩, ⟨7, 3, 3⟩⟩, sphereCenter := ⟨4, 0, 0⟩,
    physics := none, sphereRadius := 3 }

/-- C3: at a detected overlap (both phases hit, in both the dynamic-dynamic and
the dynamic-static path) the collision point delivered to every callback is the
zero vector, not the midpoint (2,0,0) of the bounding-sphere centers: the
midpoint expression at renderer.js:357-359 (and 390-392) is computed and
discarded. -/
theorem C3_code_bug :
    ((collisionUpdatePairDefault mfId c3ObjA c3ObjB).2.map CollisionCall.point =
      [Vec3.zero, Vec3.zero]) ∧
    ((collisionUpdateDynStatic mfId c3ObjA c3Static).2.map CollisionCall.point =
      [Vec3.zero]) ∧
    specMidpoint c3ObjA c3ObjB = ⟨2, 0, 0⟩ ∧
    Vec3.zero ≠ (⟨2, 0, 0⟩ : Vec3) := by
  refine ⟨by decide, by decide, by decide, by decide⟩

/-- C4 counterexample: for the concrete contacting pair (equal masses 1,
velocities (2,0,0) and (0,0,0)), one `update` pass leaves total momentum
(1.28, 0, 0) = 0.64 · p, not 0.8 · p = (1.6, 0, 0): the default response runs
once per side (A's callback, then B's), each scaling by 0.8. -/
theorem C4_counterexample :
    ((velOf (collisionUpdatePairDefault mfId c3ObjA c3ObjB).1.1).smul 1).add
      ((velOf (collisionUpdatePairDefault mfId c3ObjA c3ObjB).1.2).smul 1) =
      ⟨32/25, 0, 0⟩ ∧
    ((⟨2, 0, 0⟩ : Vec3).smul 1).add ((⟨0, 0, 0⟩ : Vec3).smul 1) = ⟨2, 0, 0⟩ ∧
    (⟨32/25, 0, 0⟩ : Vec3) ≠ (⟨2, 0, 0⟩ : Vec3).smul (4/5) := by
  refine ⟨by decide, by decide, by decide⟩

/-- C4 (amended): a single invocation of the default response on a contacting
dynamic pair scales total momentum by exactly the energy-loss factor 0.8 (for
any collision normal); B's callback receives the negation of the normal
delivered to A's callback; and one full `update` pass on the pair — which
invokes the default response once per side — scales total momentum by
0.8² = 0.64. -/
theorem C4_amended (mf : MathFns) (objA objB : ColliderObj) (v1 v2 : Vec3) (m1 m2 : ℚ)
    (hA : objA.physics = some ⟨v1, some m1⟩) (hB : objB.physics = some ⟨v2, some m2⟩)
    (hm1 : 0 < m1) (hm2 : 0 < m2)
    (hc : (sphereIntersects objA objB &&
           boxIntersects objA.boundingBox objB.boundingBox) = true) :
    (∀ n : Vec3,
      ((velOf (defaultCollisionResponse objA objB n).1).smul m1).add
        ((velOf (defaultCollisionResponse objA objB n).2).smul m2) =
      ((v1.smul m1).add (v2.smul m2)).smul (4/5)) ∧
    ((collisionUpdatePairDefault mf objA objB).2.map CollisionCall.normal =
      [Vec3.normalizeW mf (objB.sphereCenter.sub objA.sphereCenter),
       (Vec3.normalizeW mf (objB.sphereCenter.sub objA.sphereCenter)).neg]) ∧
    (((velOf (collisionUpdatePairDefault mf objA objB).1.1).smul m1).add
      ((velOf (collisionUpdatePairDefault mf objA objB).1.2).smul m2) =
      ((v1.smul m1).add (v2.smul m2)).smul (16/25)) := by
  have comm : ∀ a b : Vec3, a.add b = b.add a := by
    intro a b
    simp only [Vec3.add, Vec3.mk.injEq]
    exact ⟨add_comm _ _, add_comm _ _, add_comm _ _⟩
  have key : ∀ (a b : ℚ) (ca cb : ColliderObj) (w1 w2 n : Vec3),
      ca.physics = some ⟨w1, some a⟩ → cb.physics = some ⟨w2, some b⟩ →
      0 < a → 0 < b →
      ((velOf (defaultCollisionResponse ca cb n).1).smul a).add
        ((velOf (defaultCollisionResponse ca cb n).2).smul b) =
      ((w1.smul a).add (w2.smul b)).smul (4/5) := by
    intro a b ca cb w1 w2 n h1 h2 ha hb
    have haz : a ≠ 0 := ne_of_gt ha
    have hbz : b ≠ 0 := ne_of_gt hb
    have habz : a + b ≠ 0 := by positivity
    obtain ⟨bx1, sc1, sr1, ph1⟩ := ca
    obtain ⟨bx2, sc2, sr2, ph2⟩ := cb
    simp only at h1 h2
    subst h1 h2
    simp only [defaultCollisionResponse, velOf, haz, hbz, if_false, ite_false,
      if_neg hbz, if_neg haz]
    simp only [Vec3.sub, Vec3.add, Vec3.smul, Vec3.dot, Vec3.mk.injEq]
    refine ⟨?_, ?_, ?_⟩ <;> field_simp <;> ring
  -- the response preserves the collider shell and the mass, and velOf reads the new velocity
  have hphys : ∀ (ca cb : ColliderObj) (w1 w2 n : Vec3),
      ca.physics = some ⟨w1, some m1⟩ → cb.physics = some ⟨w2, some m2⟩ →
      (defaultCollisionResponse ca cb n).1.physics =
        some ⟨velOf (defaultCollisionResponse ca cb n).1, some m1⟩ ∧
      (defaultCollisionResponse ca cb n).2.physics =
        some ⟨velOf (defaultCollisionResponse ca cb n).2, some m2⟩ := by
    intro ca cb w1 w2 n h1 h2
    have hbz : m2 ≠ 0 := ne_of_gt hm2
    obtain ⟨bx1, sc1, sr1, ph1⟩ := ca
    obtain ⟨bx2, sc2, sr2, ph2⟩ := cb
    simp only at h1 h2
    subst h1 h2
    constructor <;>
      simp only [defaultCollisionResponse, velOf, hbz, if_false, ite_false, if_neg hbz]
  refine ⟨fun n => key m1 m2 objA objB v1 v2 n hA hB hm1 hm2, ?_, ?_⟩
  · simp [collisionUpdatePairDefault, hc]
  · simp only [collisionUpdatePairDefault, hc, if_true]
    set n0 := Vec3.normalizeW mf (objB.sphereCenter.sub objA.sphereCenter) with hn0
    set r1 := defaultCollisionResponse objA objB n0 with hr1
    have hp := hphys objA objB v1 v2 n0 hA hB
    have step1 := key m1 m2 objA objB v1 v2 n0 hA hB hm1 hm2
    have step2 := key m2 m1 r1.2 r1.1 (velOf r1.2) (velOf r1.1) n0.neg hp.2 hp.1 hm2 hm1
    calc ((velOf (defaultCollisionResponse r1.2 r1.1 n0.neg).2).smul m1).add
          ((velOf (defaultCollisionResponse r1.2 r1.1 n0.neg).1).smul m2)
        = ((velOf (defaultCollisionResponse r1.2 r1.1 n0.neg).1).smul m2).add
          ((velOf (defaultCollisionResponse r1.2 r1.1 n0.neg).2).smul m1) := comm _ _
      _ = (((velOf r1.2).smul m2).add ((velOf r1.1).smul m1)).smul (4/5) := step2
      _ = (((velOf r1.1).smul m1).add ((velOf r1.2).smul m2)).smul (4/5) := by rw [comm]
      _ = (((v1.smul m1).add (v2.smul m2)).smul (4/5)).smul (4/5) := by rw [step1]
      _ = ((v1.smul m1).add (v2.smul m2)).smul (16/25) := by
          simp only [Vec3.smul, Vec3.mk.injEq]
          refine ⟨by ring, by ring, by ring⟩

/-- Witness for C4_amended at the concrete contacting pair. -/
theorem C4_amended_witness :
    (∀ n : Vec3,
      ((velOf (defaultCollisionResponse c3ObjA c3ObjB n).1).smul 1).add
        ((velOf (defaultCollisionResponse c3ObjA c3ObjB n).2).smul 1) =
      (((⟨2,0,0⟩ : Vec3).smul 1).add ((⟨0,0,0⟩ : Vec3).smul 1)).smul (4/5)) ∧
    ((collisionUpdatePairDefault mfId c3ObjA c3ObjB).2.map CollisionCall.normal =
      [Vec3.normalizeW mfId (c3ObjB.sphereCenter.sub c3ObjA.sphereCenter),
       (Vec3.normalizeW mfId (c3ObjB.sphereCenter.sub c3ObjA.sphereCenter)).neg]) ∧
    (((velOf (collisionUpdatePairDefault mfId c3ObjA c3ObjB).1.1).smul 1).add
      ((velOf (collisionUpdatePairDefault mfId c3ObjA c3ObjB).1.2).smul 1) =
      (((⟨2,0,0⟩ : Vec3).smul 1).add ((⟨0,0,0⟩ : Vec3).smul 1)).smul (16/25)) :=
  C4_amended mfId c3ObjA c3ObjB ⟨2,0,0⟩ ⟨0,0,0⟩ 1 1 rfl rfl (by norm_num) (by norm_num)
    (by decide)

/-!
## Game loop (claim C8)

Embedding of `GameLoop` (CollisionDetection.js, second part).  The callback
lists are modelled by returning the list of arguments passed to the
fixed-update callbacks, one entry per loop iteration (each iteration passes
`this.fixedTimeStep` to every registered fixed callback).  `requestAnimationFrame`
timestamps are inputs in milliseconds.
-/

/-- State of `GameLoop` (scheduling fields). -/
structure GameLoopState where
  lastTime : ℚ
  deltaTime : ℚ
  frameCount : ℕ
  fpsTime : ℚ
  fps : ℕ
  isRunning : Bool
  fixedTimeStep : ℚ
  maxDeltaTime : ℚ
  accumulatedTime : ℚ
  timeScale : ℚ
deriving DecidableEq

/-- `GameLoop.setTimeScale(scale)`: clamped below at 0. -/
def GameLoopState.setTimeScale (gl : GameLoopState) (scale : ℚ) : GameLoopState :=
  { gl with timeScale := max 0 scale }

/-- The fixed-update drain loop of `onFrame`:
`while (accumulatedTime >= fixedTimeStep) { callbacks(fixedTimeStep); accumulatedTime -= fixedTimeStep }`.
Returns the list of arguments passed per iteration and the leftover
accumulator.  The positivity hypothesis makes the JS loop terminating (a
non-positive step would hang the browser). -/
def fixedLoop (step : ℚ) (hstep : 0 < step) (acc : ℚ) : List ℚ × ℚ :=
  if h : step ≤ acc then
    let r := fixedLoop step hstep (acc - step)
    (step :: r.1, r.2)
  else ([], acc)
termination_by (⌈acc / step⌉).toNat
decreasing_by
  have h2 : (0:ℚ) < acc / step := div_pos (lt_of_lt_of_le hstep h) hstep
  have h3 : ⌈(acc - step) / step⌉ = ⌈acc / step⌉ - 1 := by
    rw [sub_div, div_self (ne_of_gt hstep), Int.ceil_sub_one]
  have h4 : 0 < ⌈acc / step⌉ := Int.ceil_pos.mpr h2
  rw [h3]
  omega

/-- Characterization of the drain loop: every argument passed is exactly the
fixed step, the leftover accumulator is the input minus one step per call, and
the loop stops only once the accumulator is below one step. -/
theorem fixedLoop_spec (step : ℚ) (hstep : 0 < step) (acc : ℚ) :
    (fixedLoop step hstep acc).1 =
      List.replicate (fixedLoop step hstep acc).1.length step ∧
    (fixedLoop step hstep acc).2 =
      acc - (fixedLoop step hstep acc).1.length * step ∧
    (fixedLoop step hstep acc).2 < step := by
  suffices H : ∀ (n : ℕ) (a : ℚ), (⌈a / step⌉).toNat ≤ n →
      (fixedLoop step hstep a).1 =
        List.replicate (fixedLoop step hstep a).1.length step ∧
      (fixedLoop step hstep a).2 =
        a - (fixedLoop step hstep a).1.length * step ∧
      (fixedLoop step hstep a).2 < step by
    exact H (⌈acc / step⌉).toNat acc le_rfl
  intro n
  induction n with
  | zero =>
    intro a hn
    have hle : ¬ step ≤ a := by
      intro hcon
      have h2 : (0:ℚ) < a / step := div_pos (lt_of_lt_of_le hstep hcon) hstep
      have h4 : 0 < ⌈a / step⌉ := Int.ceil_pos.mpr h2
      omega
    rw [fixedLoop, dif_neg hle]
    refine ⟨rfl, by simp, lt_of_not_le hle⟩
  | succ n ih =>
    intro a hn
    rw [fixedLoop]
    by_cases hle : step ≤ a
    · rw [dif_pos hle]
      have h3 : ⌈(a - step) / step⌉ = ⌈a / step⌉ - 1 := by
        rw [sub_div, div_self (ne_of_gt hstep), Int.ceil_sub_one]
      have hmeas : (⌈(a - step) / step⌉).toNat ≤ n := by
        rw [h3]; omega
      obtain ⟨ih1, ih2, ih3⟩ := ih (a - step) hmeas
      refine ⟨?_, ?_, ih3⟩
      · rw [List.length_cons, List.replicate_succ]
        exact congrArg (List.cons step) ih1
      · simp only [List.length_cons]
        rw [ih2]
        push_cast
        ring
    · rw [dif_neg hle]
      exact ⟨rfl, by simp, lt_of_not_le hle⟩

/-- `GameLoop.onFrame(timestamp)`: clamp the raw frame delta at
`maxDeltaTime`, apply the time scale, update the FPS counters, accumulate the
scaled delta and drain the accumulator in whole fixed steps.  Returns the new
state and the arguments passed to the fixed-update callbacks.  (The update and
render callbacks then receive `scaledDeltaTime` once each; they do not touch
this state.) -/
def GameLoopState.onFrame (gl : GameLoopState) (hstep : 0 < gl.fixedTimeStep)
    (timestamp : ℚ) : GameLoopState × List ℚ :=
  if gl.isRunning = false then (gl, [])
  else
    let currentTime := timestamp / 1000
    let deltaTime := min (currentTime - gl.lastTime) gl.maxDeltaTime
    let scaledDeltaTime := deltaTime * gl.timeScale
    let frameCount1 := gl.frameCount + 1
    let fpsTime1 := gl.fpsTime + deltaTime
    let fpsStep : ℕ × ℚ × ℕ :=
      if 1 ≤ fpsTime1 then (0, fpsTime1 - 1, frameCount1) else (frameCount1, fpsTime1, gl.fps)
    let acc := gl.accumulatedTime + scaledDeltaTime
    let r := fixedLoop gl.fixedTimeStep hstep acc
    ({ gl with lastTime := currentTime, deltaTime := deltaTime,
               frameCount := fpsStep.1, fpsTime := fpsStep.2.1, fps := fpsStep.2.2,
               accumulatedTime := r.2 }, r.1)

/-- C8: on a running loop, one frame clamps the raw delta at `maxDeltaTime`
(0.1 s by default), adds the clamped delta times the time scale to the
accumulator, and fires the fixed-update callbacks once per whole fixed step
while the accumulator holds at least one step — every invocation receiving
exactly the constant `fixedTimeStep` as its argument (the returned list is a
replicate of the step), with the leftover accumulator below one step.
Changing the time scale (through `setTimeScale`, for any requested scale `q`)
still passes exactly `fixedTimeStep` to every invocation: only the number of
ticks can change. -/
theorem onFrameRunningSpec (gl : GameLoopState) (hstep : 0 < gl.fixedTimeStep)
    (ts : ℚ) (hrun : gl.isRunning = true) :
    (gl.onFrame hstep ts).1.deltaTime = min (ts / 1000 - gl.lastTime) gl.maxDeltaTime ∧
    (gl.onFrame hstep ts).2 =
      List.replicate (gl.onFrame hstep ts).2.length gl.fixedTimeStep ∧
    (gl.onFrame hstep ts).1.accumulatedTime =
      gl.accumulatedTime + (min (ts / 1000 - gl.lastTime) gl.maxDeltaTime) * gl.timeScale -
      (gl.onFrame hstep ts).2.length * gl.fixedTimeStep ∧
    (gl.onFrame hstep ts).1.accumulatedTime < gl.fixedTimeStep := by
  have spec := fixedLoop_spec gl.fixedTimeStep hstep
    (gl.accumulatedTime + (min (ts / 1000 - gl.lastTime) gl.maxDeltaTime) * gl.timeScale)
  simp only [GameLoopState.onFrame, hrun, Bool.true_eq_false, if_false, ite_false,
    reduceIte]
  refine ⟨?A, ?B, ?C, ?D⟩
  case A => exact trivial
  case B => exact spec.1
  case C => rw [spec.2.1]
  case D => exact spec.2.2

/-- C8: on a running loop, one frame clamps the raw delta at `maxDeltaTime`
(0.1 s by default), adds the clamped delta times the time scale to the
accumulator, and fires the fixed-update callbacks once per whole fixed step
while the accumulator holds at least one step — every invocation receiving
exactly the constant `fixedTimeStep` as its argument (the returned list is a
replicate of the step), with the leftover accumulator below one step.
Changing the time scale (through `setTimeScale`, for any requested scale `q`)
still passes exactly `fixedTimeStep` to every invocation: only the number of
ticks can change. -/
theorem C8_fixed_step_loop (gl : GameLoopState) (hstep : 0 < gl.fixedTimeStep)
    (timestamp q : ℚ) (hrun : gl.isRunning = true) :
    (gl.onFrame hstep timestamp).1.deltaTime =
      min (timestamp / 1000 - gl.lastTime) gl.maxDeltaTime ∧
    (gl.onFrame hstep timestamp).2 =
      List.replicate (gl.onFrame hstep timestamp).2.length gl.fixedTimeStep ∧
    (gl.onFrame hstep timestamp).1.accumulatedTime =
      gl.accumulatedTime +
        (min (timestamp / 1000 - gl.lastTime) gl.maxDeltaTime) * gl.timeScale -
        (gl.onFrame hstep timestamp).2.length * gl.fixedTimeStep ∧
    (gl.onFrame hstep timestamp).1.accumulatedTime < gl.fixedTimeStep ∧
    ((gl.setTimeScale q).onFrame hstep timestamp).2 =
      List.replicate ((gl.setTimeScale q).onFrame hstep timestamp).2.length
        gl.fixedTimeStep := by
  obtain ⟨h1, h2, h3, h4⟩ := onFrameRunningSpec gl hstep timestamp hrun
  refine ⟨h1, h2, h3, h4, ?_⟩
  exact (onFrameRunningSpec (gl.setTimeScale q) hstep timestamp hrun).2.1

/-- Witness for C8 at a concrete running loop: defaults (step 1/60, cap 0.1),
timestamp 50 ms after start — the 0.05 s delta yields exactly three fixed
ticks of 1/60 s. -/
theorem C8_fixed_step_loop_witness :
    ((⟨0, 0, 0, 0, 0, true, 1/60, 1/10, 0, 1⟩ : GameLoopState).onFrame (by norm_num)
        50).1.deltaTime = min (50 / 1000 - 0) (1/10) ∧
    ((⟨0, 0, 0, 0, 0, true, 1/60, 1/10, 0, 1⟩ : GameLoopState).onFrame (by norm_num)
        50).2 =
      List.replicate ((⟨0, 0, 0, 0, 0, true, 1/60, 1/10, 0, 1⟩ : GameLoopState).onFrame
        (by norm_num) 50).2.length (1/60) ∧
    ((⟨0, 0, 0, 0, 0, true, 1/60, 1/10, 0, 1⟩ : GameLoopState).onFrame (by norm_num)
        50).1.accumulatedTime =
      0 + (min (50 / 1000 - 0) (1/10)) * 1 -
        ((⟨0, 0, 0, 0, 0, true, 1/60, 1/10, 0, 1⟩ : GameLoopState).onFrame (by norm_num)
          50).2.length * (1/60) ∧
    ((⟨0, 0, 0, 0, 0, true, 1/60, 1/10, 0, 1⟩ : GameLoopState).onFrame (by norm_num)
        50).1.accumulatedTime < 1/60 ∧
    (((⟨0, 0, 0, 0, 0, true, 1/60, 1/10, 0, 1⟩ : GameLoopState).setTimeScale 7).onFrame
        (by norm_num [GameLoopState.setTimeScale]) 50).2 =
      List.replicate (((⟨0, 0, 0, 0, 0, true, 1/60, 1/10, 0, 1⟩ :
        GameLoopState).setTimeScale 7).onFrame (by norm_num [GameLoopState.setTimeScale]) 50).2.length (1/60) :=
  C8_fixed_step_loop ⟨0, 0, 0, 0, 0, true, 1/60, 1/10, 0, 1⟩ (by norm_num) 50 7 rfl

/-!
## Vehicle physics (claims C5, C6, C10)

Embedding of `VehiclePhysics` (vehiclePhysics.js).  Quantities are exact
rationals; host math (`Math.sqrt`, the half-angle sine/cosine used by
`Quaternion.setFromAxisAngle`, `Math.PI`) comes from the abstract `MathFns`.
The raycaster set up in `updateSuspension` is dead code (the ray is never
intersected; ground height comes from `getHeightAt` or defaults to 0) and is
omitted.  `9.81` is `981/100`, `0.016` is `2/125`, `0.95` is `19/20`.
-/

/-- Quaternion `(x, y, z, w)`, embedding `THREE.Quaternion`. -/
structure QuatQ where
  x : ℚ
  y : ℚ
  z : ℚ
  w : ℚ
deriving DecidableEq

/-- `Quaternion.multiplyQuaternions(a, b)`. -/
def QuatQ.mul (a b : QuatQ) : QuatQ :=
  ⟨a.x * b.w + a.w * b.x + a.y * b.z - a.z * b.y,
   a.y * b.w + a.w * b.y + a.z * b.x - a.x * b.z,
   a.z * b.w + a.w * b.z + a.x * b.y - a.y * b.x,
   a.w * b.w - a.x * b.x - a.y * b.y - a.z * b.z⟩

/-- `Quaternion.setFromAxisAngle(axis, angle)` (axis assumed normalized). -/
def QuatQ.setFromAxisAngle (mf : MathFns) (axis : Vec3) (angle : ℚ) : QuatQ :=
  ⟨axis.x * mf.sinHalf angle, axis.y * mf.sinHalf angle, axis.z * mf.sinHalf angle,
   mf.cosHalf angle⟩

/-- `Quaternion.normalize()`: divide by the length, identity when it is zero. -/
def QuatQ.normalizeQ (mf : MathFns) (q : QuatQ) : QuatQ :=
  let l := mf.sqrt (q.x * q.x + q.y * q.y + q.z * q.z + q.w * q.w)
  if l = 0 then ⟨0, 0, 0, 1⟩
  else ⟨q.x / l, q.y / l, q.z / l, q.w / l⟩

/-- `Vector3.applyQuaternion(q)` (unit quaternion assumed). -/
def Vec3.applyQuaternion (v : Vec3) (q : QuatQ) : Vec3 :=
  let tx := 2 * (q.y * v.z - q.z * v.y)
  let ty := 2 * (q.z * v.x - q.x * v.z)
  let tz := 2 * (q.x * v.y - q.y * v.x)
  ⟨v.x + q.w * tx + (q.y * tz - q.z * ty),
   v.y + q.w * ty + (q.z * tx - q.x * tz),
   v.z + q.w * tz + (q.x * ty - q.y * tx)⟩

/-- One wheel's state. -/
structure Wheel where
  position : Vec3
  onGround : Bool
  suspensionForce : ℚ
  rotation : ℚ
deriving DecidableEq

/-- `VehiclePhysics` configuration (the numeric fields of `this.config`). -/
structure VehicleConfig where
  maxSpeed : ℚ
  acceleration : ℚ
  deceleration : ℚ
  braking : ℚ
  maxSteeringAngle : ℚ
  steeringSpeed : ℚ
  steeringReturn : ℚ
  suspensionHeight : ℚ
  suspensionStiffness : ℚ
  suspensionDamping : ℚ
  suspensionTravel : ℚ
  mass : ℚ
  dragCoefficient : ℚ
  rollingResistance : ℚ
  wheelBase : ℚ
  trackWidth : ℚ
  wheelRadius : ℚ

/-- The constructor's default configuration (`maxSteeringAngle = π/6` uses the
host's pi). -/
def defaultConfig (mf : MathFns) : VehicleConfig :=
  { maxSpeed := 200, acceleration := 10, deceleration := 5, braking := 15,
    maxSteeringAngle := mf.pi / 6, steeringSpeed := 5/2, steeringReturn := 1,
    suspensionHeight := 1/2, suspensionStiffness := 10, suspensionDamping := 4/5,
    suspensionTravel := 3/10, mass := 1200, dragCoefficient := 3/10,
    rollingResistance := 1/10, wheelBase := 14/5, trackWidth := 8/5,
    wheelRadius := 7/20 }

/-- `this.state` of `VehiclePhysics`. -/
structure VState where
  position : Vec3
  rotation : QuatQ
  velocity : Vec3
  angularVelocity : Vec3
  throttle : ℚ
  brake : ℚ
  steering : ℚ
  wheels : List Wheel
  speedKmh : ℚ
  rpm : ℚ
  gear : ℕ
deriving DecidableEq

/-- The constructor's initial state: at rest, at the rest suspension height,
wheels at `(±trackWidth/2, 0, ±wheelBase/2)` (front axle has positive z). -/
def initialState (cfg : VehicleConfig) : VState :=
  { position := ⟨0, cfg.suspensionHeight, 0⟩
    rotation := ⟨0, 0, 0, 1⟩
    velocity := ⟨0, 0, 0⟩
    angularVelocity := ⟨0, 0, 0⟩
    throttle := 0
    brake := 0
    steering := 0
    wheels := [
      ⟨⟨-cfg.trackWidth/2, 0, cfg.wheelBase/2⟩, false, 0, 0⟩,
      ⟨⟨cfg.trackWidth/2, 0, cfg.wheelBase/2⟩, false, 0, 0⟩,
      ⟨⟨-cfg.trackWidth/2, 0, -cfg.wheelBase/2⟩, false, 0, 0⟩,
      ⟨⟨cfg.trackWidth/2, 0, -cfg.wheelBase/2⟩, false, 0, 0⟩]
    speedKmh := 0
    rpm := 0
    gear := 1 }

/-- The optional control fields passed to `setControls`. -/
structure ControlsInput where
  throttle : Option ℚ
  brake : Option ℚ
  steering : Option ℚ

/-- `VehiclePhysics.setControls(controls)`: clamp throttle to [-1,1] and brake
to [0,1]; move the current steering toward the clamped target by
`steeringSpeed * 0.016` per call (the hardcoded 60-fps assumption), clamped so
it never passes the target. -/
def setControls (cfg : VehicleConfig) (s : VState) (c : ControlsInput) : VState :=
  let s1 := match c.throttle with
    | none => s
    | some t => { s with throttle := max (-1) (min 1 t) }
  let s2 := match c.brake with
    | none => s1
    | some b => { s1 with brake := max 0 (min 1 b) }
  match c.steering with
  | none => s2
  | some st =>
    let targetSteering := max (-1) (min 1 st)
    if s2.steering < targetSteering then
      { s2 with steering := min targetSteering (s2.steering + cfg.steeringSpeed * (2/125)) }
    else if targetSteering < s2.steering then
      { s2 with steering := max targetSteering (s2.steering - cfg.steeringSpeed * (2/125)) }
    else s2

/-- The ground height function: `getHeightAt` when provided, else flat 0. -/
def groundHeightAt (getHeightAt : Option (ℚ → ℚ → ℚ)) (x z : ℚ) : ℚ :=
  match getHeightAt with
  | some f => f x z
  | none => 0

/-- The per-wheel body of `updateSuspension`: world wheel position from body
pose, ground sample, spring-damper force when the wheel is within
`suspensionHeight + suspensionTravel` of the ground, clamped at 0. -/
def updateSuspensionWheel (cfg : VehicleConfig) (s : VState)
    (getHeightAt : Option (ℚ → ℚ → ℚ)) (upDir : Vec3) (w : Wheel) : Wheel :=
  let wheelPos := (w.position.applyQuaternion s.rotation).add s.position
  let groundHeight := groundHeightAt getHeightAt wheelPos.x wheelPos.z
  let restHeight := cfg.suspensionHeight
  let rayLength := cfg.suspensionHeight + cfg.suspensionTravel
  let distanceToGround := wheelPos.y - groundHeight
  if distanceToGround < rayLength then
    let compression := 1 - distanceToGround / restHeight
    let springForce := compression * cfg.suspensionStiffness * cfg.mass * (981/100) / 4
    let verticalVelocity := s.velocity.dot upDir
    let dampingForce := verticalVelocity * cfg.suspensionDamping
    { w with onGround := true, suspensionForce := max 0 (springForce - dampingForce) }
  else
    { w with onGround := false, suspensionForce := 0 }

/-- `VehiclePhysics.updateSuspension(getHeightAt)`. -/
def updateSuspension (cfg : VehicleConfig) (s : VState)
    (getHeightAt : Option (ℚ → ℚ → ℚ)) : VState :=
  let upDir := (⟨0, 1, 0⟩ : Vec3).applyQuaternion s.rotation
  { s with wheels := s.wheels.map (updateSuspensionWheel cfg s getHeightAt upDir) }

/-- Number of wheels currently on the ground. -/
def wheelsOnGroundCount (s : VState) : ℕ :=
  (s.wheels.filter (fun w => w.onGround)).length

/-- `VehiclePhysics.applyForces(dt)`: gravity, suspension, engine (grounded
only), braking and drag and rolling resistance (only above the 0.1 speed²
threshold), steering torque (grounded and `|steering| > 0.01` only);
integrate velocity, add steering torque to the angular velocity, apply the
steering self-centering decay `(1 - steeringReturn·dt)` with the 0.01 snap,
and damp the angular velocity by 0.95. -/
def applyForces (mf : MathFns) (cfg : VehicleConfig) (dt : ℚ) (s : VState) : VState :=
  let forwardDir := (⟨0, 0, 1⟩ : Vec3).applyQuaternion s.rotation
  let upDir := (⟨0, 1, 0⟩ : Vec3).applyQuaternion s.rotation
  let gravity : Vec3 := ⟨0, -(981/100) * cfg.mass, 0⟩
  let wheelsOnGround := wheelsOnGroundCount s
  let totalSuspensionForce := s.wheels.foldl
    (fun acc w => if w.onGround then acc.add (upDir.smul w.suspensionForce) else acc)
    (⟨0, 0, 0⟩ : Vec3)
  let engineForce : Vec3 :=
    if 0 < wheelsOnGround then forwardDir.smul (s.throttle * cfg.acceleration * cfg.mass)
    else ⟨0, 0, 0⟩
  let velocitySq := s.velocity.lengthSq
  let brakeForce : Vec3 :=
    if 0 < s.brake ∧ (1/10 : ℚ) < velocitySq then
      (s.velocity.normalizeW mf).smul (-(s.brake * cfg.braking * cfg.mass))
    else ⟨0, 0, 0⟩
  let steeringTorque : Vec3 :=
    if 1/100 < |s.steering| ∧ 0 < wheelsOnGround then
      upDir.smul (s.steering * cfg.maxSteeringAngle * mf.sqrt velocitySq * (1/2))
    else ⟨0, 0, 0⟩
  let dragForce : Vec3 :=
    if (1/10 : ℚ) < velocitySq then
      (s.velocity.normalizeW mf).smul (-cfg.dragCoefficient * velocitySq)
    else ⟨0, 0, 0⟩
  let rollingForce : Vec3 :=
    if (1/10 : ℚ) < velocitySq ∧ 0 < wheelsOnGround then
      (s.velocity.normalizeW mf).smul (-cfg.rollingResistance * cfg.mass * (981/100))
    else ⟨0, 0, 0⟩
  let totalForce := ((((gravity.add totalSuspensionForce).add engineForce).add
    brakeForce).add dragForce).add rollingForce
  let acceleration := totalForce.smul (1 / cfg.mass)
  let velocity1 := s.velocity.add (acceleration.smul dt)
  let angular1 := s.angularVelocity.add (steeringTorque.smul dt)
  let steering1 :=
    if 1/100 < |s.steering| ∧ 0 < wheelsOnGround then
      let snapped := s.steering * (1 - cfg.steeringReturn * dt)
      if |snapped| < 1/100 then 0 else snapped
    else s.steering
  { s with velocity := velocity1, angularVelocity := angular1.smul (19/20),
           steering := steering1 }

/-- The gear ratio table `[2.66, 1.78, 1.3, 1, 0.74, 0.5]`. -/
def gearTable : List ℚ := [266/100, 178/100, 130/100, 1, 74/100, 1/2]

/-- `VehiclePhysics.update(deltaTime, getHeightAt)`: cap `dt` at 0.1 s, sample
suspension, apply forces, integrate position, compose the elementary axis
rotations of `angularVelocity·dt` (X, then Y, then Z) into the orientation and
renormalize, spin grounded wheels by distance over circumference, and derive
speed, gear (speed thresholds at 30·i km/h) and RPM (clamped to [800, 8000]). -/
def vehUpdate (mf : MathFns) (cfg : VehicleConfig) (deltaTime : ℚ)
    (getHeightAt : Option (ℚ → ℚ → ℚ)) (s : VState) : VState :=
  let dt := min deltaTime (1/10)
  let s1 := updateSuspension cfg s getHeightAt
  let s2 := applyForces mf cfg dt s1
  let position1 := s2.position.add (s2.velocity.smul dt)
  let angularDelta := s2.angularVelocity.smul dt
  let rotationDelta :=
    ((QuatQ.setFromAxisAngle mf ⟨1, 0, 0⟩ angularDelta.x).mul
      (QuatQ.setFromAxisAngle mf ⟨0, 1, 0⟩ angularDelta.y)).mul
      (QuatQ.setFromAxisAngle mf ⟨0, 0, 1⟩ angularDelta.z)
  let rotation1 := (rotationDelta.mul s2.rotation).normalizeQ mf
  let wheelCircumference := 2 * mf.pi * cfg.wheelRadius
  let wheelRotPerMeter := (2 * mf.pi) / wheelCircumference
  let distanceTraveled := mf.sqrt s2.velocity.lengthSq * dt
  let wheels1 := s2.wheels.map (fun w =>
    if w.onGround then { w with rotation := w.rotation + distanceTraveled * wheelRotPerMeter }
    else w)
  let speedKmh1 := mf.sqrt s2.velocity.lengthSq * (36/10)
  let gear1 : ℕ := (List.range 5).foldl
    (fun (g i : ℕ) => if ((i : ℚ) + 1) * 30 < speedKmh1 then i + 2 else g) 1
  let wheelRpm := speedKmh1 / (36/10) * 60 / wheelCircumference
  let rpm1 := wheelRpm * gearTable.getD (gear1 - 1) 0 * (342/100)
  { s2 with position := position1, rotation := rotation1, wheels := wheels1,
            speedKmh := speedKmh1, rpm := max 800 (min 8000 rpm1), gear := gear1 }

/-!
## Steering-rate scenario (claim C5)

`setControls` moves steering by the hardcoded `steeringSpeed * 0.016` per
call, i.e. `2.5 * 0.016 = 0.04 = 1/25` with the default configuration —
independent of the real call rate.
-/

/-- Iterate `setControls` with a constant steering input of 1 (no throttle or
brake fields), as the 60 Hz scenario prescribes. -/
def steerIterate (cfg : VehicleConfig) (s : VState) : ℕ → VState
  | 0 => s
  | n + 1 => setControls cfg (steerIterate cfg s n) ⟨none, none, some 1⟩

/-- Closed form of the steering value under constant full-steer input from the
initial state: `min 1 (n/25)` after `n` calls. -/
theorem steerIterate_steering (mf : MathFns) (n : ℕ) :
    (steerIterate (defaultConfig mf) (initialState (defaultConfig mf)) n).steering =
      min 1 ((n : ℚ) / 25) := by
  induction n with
  | zero =>
    simp only [steerIterate, initialState, Nat.cast_zero, zero_div]
    norm_num
  | succ n ih =>
    have htar : max (-1 : ℚ) (min 1 1) = 1 := by norm_num
    simp only [steerIterate, setControls, ih, htar]
    rcases le_or_lt 1 ((n : ℚ) / 25) with h | h
    · have h2 : (1 : ℚ) ≤ ((n : ℚ) + 1) / 25 := by linarith
      rw [min_eq_left h, if_neg (lt_irrefl (1 : ℚ)), if_neg (lt_irrefl (1 : ℚ)), ih,
        min_eq_left h]
      push_cast
      exact (min_eq_left h2).symm
    · rw [min_eq_right (le_of_lt h), if_pos h]
      dsimp only [defaultConfig]
      push_cast
      rw [show ((n : ℚ) / 25 + 5/2 * (2/125)) = ((n : ℚ) + 1) / 25 by ring]

set_option maxRecDepth 4000 in
/-- C5 counterexample: 0.4 s of calls at 60 Hz is 24 calls, and 24 calls move
steering to 24 · 0.04 = 0.96, not 1.0 — `setControls` advances by the
hardcoded `steeringSpeed · 0.016` per call, and 2.5 · 0.016 · 24 = 0.96. -/
theorem C5_counterexample :
    (steerIterate (defaultConfig mfId) (initialState (defaultConfig mfId)) 24).steering
      = 24/25 ∧ ((24 : ℚ)/25) ≠ 1 := by
  refine ⟨by decide, by decide⟩

/-- C5 (amended): under constant full-steer input at 60 Hz, steering is 0.96
after 0.4 s (24 calls), reaches exactly 1.0 at the 25th call (≈0.417 s), and
never exceeds the clamped target 1 at any call. -/
theorem C5_amended (mf : MathFns) :
    (steerIterate (defaultConfig mf) (initialState (defaultConfig mf)) 24).steering
      = 24/25 ∧
    (steerIterate (defaultConfig mf) (initialState (defaultConfig mf)) 25).steering
      = 1 ∧
    ∀ n : ℕ,
      (steerIterate (defaultConfig mf) (initialState (defaultConfig mf)) n).steering ≤ 1 := by
  refine ⟨?_, ?_, ?_⟩
  · rw [steerIterate_steering]
    norm_num
  · rw [steerIterate_steering]
    norm_num
  · intro n
    rw [steerIterate_steering]
    exact min_le_left _ _

/-!
## Rest-state behavior of `update` (claim C6)

At the constructor's rest suspension height (wheel height = `suspensionHeight`
= 0.5) the suspension compression is zero, so the spring force is zero and
gravity is unbalanced: one update adds downward velocity `9.81·min(dt, 0.1)`.
Force balance instead occurs at compression ratio `1/stiffness = 1/10`, i.e.
wheel height `0.45` with the default configuration, where the four wheel
spring forces (`2943` each) sum exactly to `mass·9.81 = 11772`.
-/

/-- The vehicle at the suspension equilibrium height over flat ground:
`initialState` with the body lowered to y = 0.45. -/
def equilibriumHeightState (cfg : VehicleConfig) : VState :=
  { initialState cfg with position := ⟨0, 9/20, 0⟩ }

/-- C6 counterexample: at the rest suspension height with zero velocity and
zero controls, `update(0.1, flat ground)` RAISES the speed from 0 to
9.81·0.1 = 0.981 m/s downward — velocity magnitude increases, because the
spring force at zero compression is zero and gravity is unbalanced. -/
theorem C6_counterexample :
    (vehUpdate mfId (defaultConfig mfId) (1/10) none
        (initialState (defaultConfig mfId))).velocity = ⟨0, -981/1000, 0⟩ ∧
    (initialState (defaultConfig mfId)).velocity.lengthSq <
      (vehUpdate mfId (defaultConfig mfId) (1/10) none
        (initialState (defaultConfig mfId))).velocity.lengthSq := by
  refine ⟨by decide, by decide⟩

/-- C6 (amended): for every `dt` (the cap makes the effective step
`min dt 0.1`) and every host math instance, `update(dt, flat ground)` on a
vehicle at rest with zero controls at the suspension EQUILIBRIUM height
(0.45, compression ratio `1/stiffness`) leaves the velocity at exactly zero,
so its magnitude does not increase; at the rest suspension height 0.5 the
magnitude instead grows by `9.81·min(dt, 0.1)` (see the counterexample). -/
theorem C6_amended (mf : MathFns) (dt : ℚ) :
    (vehUpdate mf (defaultConfig mf) dt none
        (equilibriumHeightState (defaultConfig mf))).velocity = ⟨0, 0, 0⟩ ∧
    (vehUpdate mf (defaultConfig mf) dt none
        (equilibriumHeightState (defaultConfig mf))).velocity.lengthSq ≤
      (equilibriumHeightState (defaultConfig mf)).velocity.lengthSq := by
  have hv : (vehUpdate mf (defaultConfig mf) dt none
      (equilibriumHeightState (defaultConfig mf))).velocity = ⟨0, 0, 0⟩ := by
    show (applyForces mf (defaultConfig mf) (min dt (1/10))
      (updateSuspension (defaultConfig mf) (equilibriumHeightState (defaultConfig mf))
        none)).velocity = ⟨0, 0, 0⟩
    norm_num [applyForces, updateSuspension, updateSuspensionWheel, groundHeightAt,
      equilibriumHeightState, initialState, defaultConfig, wheelsOnGroundCount,
      Vec3.applyQuaternion, Vec3.add, Vec3.smul, Vec3.dot, Vec3.lengthSq, Vec3.sub,
      Vec3.normalizeW]
  refine ⟨hv, ?_⟩
  rw [hv]
  norm_num [equilibriumHeightState, initialState, Vec3.lengthSq, Vec3.dot]

/-!
## Steering invariants of `setControls` and `update` (claim C10)
-/

/-- The steering value after the self-centering passage of `applyForces`
within one `update(dt)` (factor `1 - steeringReturn·min(dt, 0.1)`, snap below
0.01 to 0), given the guard held.  Specialized to `steeringReturn = 1`
(default configuration). -/
def steerStep (dt x : ℚ) : ℚ :=
  if 1/100 < |x| then
    (if |x * (1 - min dt (1/10))| < 1/100 then 0 else x * (1 - min dt (1/10)))
  else x

/-- The equilibrium-height vehicle state with a given steering value: all four
wheels grounded with the balancing spring force 2943 each, everything else at
rest (the fixed-point shape `update` maps into itself, steering apart). -/
def eqSteerState (x : ℚ) : VState :=
  { position := ⟨0, 9/20, 0⟩
    rotation := ⟨0, 0, 0, 1⟩
    velocity := ⟨0, 0, 0⟩
    angularVelocity := ⟨0, 0, 0⟩
    throttle := 0
    brake := 0
    steering := x
    wheels := [⟨⟨-4/5, 0, 7/5⟩, true, 2943, 0⟩, ⟨⟨4/5, 0, 7/5⟩, true, 2943, 0⟩,
               ⟨⟨-4/5, 0, -7/5⟩, true, 2943, 0⟩, ⟨⟨4/5, 0, -7/5⟩, true, 2943, 0⟩]
    speedKmh := 0
    rpm := 800
    gear := 1 }

/-- The steering passage of one `update`, read off definitionally: `update`
changes steering exactly by the grounded self-centering decay of
`applyForces`, evaluated on the wheels refreshed by `updateSuspension`. -/
theorem vehUpdate_steering (mf : MathFns) (cfg : VehicleConfig) (dt : ℚ)
    (gh : Option (ℚ → ℚ → ℚ)) (s : VState) :
    (vehUpdate mf cfg dt gh s).steering =
      if 1/100 < |s.steering| ∧
          0 < wheelsOnGroundCount (updateSuspension cfg s gh) then
        (if |s.steering * (1 - cfg.steeringReturn * min dt (1/10))| < 1/100 then 0
         else s.steering * (1 - cfg.steeringReturn * min dt (1/10)))
      else s.steering := rfl

/-- `setControls` with a steering field moves the current steering toward the
clamped target without passing it (for a nonnegative steering rate): the new
value stays between the old value and the target. -/
theorem setControls_steer_between (cfg : VehicleConfig)
    (hsp : 0 ≤ cfg.steeringSpeed) (s : VState) (st : ℚ) :
    min s.steering (max (-1) (min 1 st)) ≤
      (setControls cfg s ⟨none, none, some st⟩).steering ∧
    (setControls cfg s ⟨none, none, some st⟩).steering ≤
      max s.steering (max (-1) (min 1 st)) := by
  have hd : 0 ≤ cfg.steeringSpeed * (2/125) := by positivity
  simp only [setControls]
  rcases lt_trichotomy s.steering (max (-1) (min 1 st)) with h | h | h
  · rw [if_pos h]
    dsimp only
    refine ⟨?_, (min_le_left _ _).trans (le_max_right _ _)⟩
    rw [min_eq_left h.le]
    exact le_min h.le (by linarith)
  · rw [if_neg (by rw [h]; exact lt_irrefl _), if_neg (by rw [h]; exact lt_irrefl _)]
    exact ⟨min_le_left _ _, le_max_left _ _⟩
  · rw [if_neg (not_lt.mpr h.le), if_pos h]
    dsimp only
    refine ⟨(min_le_right _ _).trans (le_max_left _ _), ?_⟩
    exact max_le (le_max_right _ _)
      ((by linarith : s.steering - cfg.steeringSpeed * (2/125) ≤ s.steering).trans
        (le_max_left _ _))

set_option maxHeartbeats 3000000 in
/-- One `update(dt, flat ground)` on the equilibrium-height family with all
wheels grounded only decays the steering: the state stays in the family.  The
host-math hypotheses (`sqrt 0 = 0`, `sqrt 1 = 1`, `sin 0 = 0`, `cos 0 = 1`)
hold of IEEE `Math.sqrt`/`Math.sin`/`Math.cos`. -/
theorem vehUpdate_eqSteer (mf : MathFns) (hs0 : mf.sqrt 0 = 0) (hs1 : mf.sqrt 1 = 1)
    (hsin : mf.sinHalf 0 = 0) (hcos : mf.cosHalf 0 = 1) (dt x : ℚ) :
    vehUpdate mf (defaultConfig mf) dt none (eqSteerState x) =
      eqSteerState (steerStep dt x) := by
  have hr : List.range 5 = [0, 1, 2, 3, 4] := rfl
  by_cases hx : (1 : ℚ)/100 < |x|
  · by_cases hsnap : |x * (1 - min dt (1/10))| < 1/100
    · norm_num [vehUpdate, applyForces, updateSuspension, updateSuspensionWheel,
        groundHeightAt, eqSteerState, defaultConfig, wheelsOnGroundCount, steerStep,
        Vec3.applyQuaternion, Vec3.add, Vec3.smul, Vec3.dot, Vec3.lengthSq, Vec3.sub,
        Vec3.normalizeW, QuatQ.mul, QuatQ.setFromAxisAngle, QuatQ.normalizeQ,
        gearTable, hr, hs0, hs1, hsin, hcos, hx, hsnap]
    · norm_num [vehUpdate, applyForces, updateSuspension, updateSuspensionWheel,
        groundHeightAt, eqSteerState, defaultConfig, wheelsOnGroundCount, steerStep,
        Vec3.applyQuaternion, Vec3.add, Vec3.smul, Vec3.dot, Vec3.lengthSq, Vec3.sub,
        Vec3.normalizeW, QuatQ.mul, QuatQ.setFromAxisAngle, QuatQ.normalizeQ,
        gearTable, hr, hs0, hs1, hsin, hcos, hx, hsnap]
  · norm_num [vehUpdate, applyForces, updateSuspension, updateSuspensionWheel,
      groundHeightAt, eqSteerState, defaultConfig, wheelsOnGroundCount, steerStep,
      Vec3.applyQuaternion, Vec3.add, Vec3.smul, Vec3.dot, Vec3.lengthSq, Vec3.sub,
      Vec3.normalizeW, QuatQ.mul, QuatQ.setFromAxisAngle, QuatQ.normalizeQ,
      gearTable, hr, hs0, hs1, hsin, hcos, hx]

/-- Iterated `update(0.1, flat ground)` from the equilibrium-height family
with initial steering `x`, with `setControls` never called. -/
def updEqIter (mf : MathFns) (x : ℚ) : ℕ → VState
  | 0 => eqSteerState x
  | n + 1 => vehUpdate mf (defaultConfig mf) (1/10) none (updEqIter mf x n)

/-- Iterated steering decay at the capped step 0.1 (factor 0.9 per update). -/
def steerStepIter (x : ℚ) : ℕ → ℚ
  | 0 => x
  | n + 1 => steerStep (1/10) (steerStepIter x n)

/-- The iterated updates track the iterated steering decay. -/
theorem updEqIter_eq (mf : MathFns) (hs0 : mf.sqrt 0 = 0) (hs1 : mf.sqrt 1 = 1)
    (hsin : mf.sinHalf 0 = 0) (hcos : mf.cosHalf 0 = 1) (x : ℚ) (n : ℕ) :
    updEqIter mf x n = eqSteerState (steerStepIter x n) := by
  induction n with
  | zero => rfl
  | succ n ih =>
    rw [updEqIter, ih, vehUpdate_eqSteer mf hs0 hs1 hsin hcos, steerStepIter]

/-- Geometric decay bound for the iterated steering: after `n` grounded
updates the magnitude is below `max (0.9^n) 0.01`. -/
theorem steerStepIter_bound (x : ℚ) (hx : |x| ≤ 1) (n : ℕ) :
    |steerStepIter x n| ≤ max ((9/10 : ℚ)^n) (1/100) := by
  induction n with
  | zero =>
    rw [steerStepIter, pow_zero]
    exact le_max_of_le_left hx
  | succ n ih =>
    rw [steerStepIter, steerStep]
    have hmin : min (1/10 : ℚ) (1/10) = 1/10 := min_self _
    by_cases hg : (1 : ℚ)/100 < |steerStepIter x n|
    · rw [if_pos hg, hmin]
      by_cases hsnap : |steerStepIter x n * (1 - 1/10 : ℚ)| < 1/100
      · rw [if_pos hsnap]
        simp only [abs_zero]
        positivity
      · rw [if_neg hsnap, abs_mul]
        have h9 : |(1 - 1/10 : ℚ)| = 9/10 := by norm_num
        rw [h9]
        have step : |steerStepIter x n| * (9/10) ≤ max ((9/10 : ℚ)^n) (1/100) * (9/10) := by
          have : (0:ℚ) ≤ 9/10 := by norm_num
          exact mul_le_mul_of_nonneg_right ih this
        refine step.trans ?_
        rcases max_cases ((9/10 : ℚ)^n) (1/100) with ⟨hm, _⟩ | ⟨hm, _⟩ <;> rw [hm]
        · rw [pow_succ]
          exact le_max_left _ _
        · refine le_max_of_le_right ?_
          norm_num
    · rw [if_neg hg]
      exact le_max_of_le_right (not_lt.mp hg)

set_option maxRecDepth 8000 in
/-- C10 counterexample: from steering 1/90 at the grounded equilibrium state,
one `update(0.1)` multiplies by 0.9 landing EXACTLY on the 0.01 boundary; the
snap requires strictly-below-0.01, so steering rests at 1/100 and the state is
a fixed point of `update` — successive updates never center steering to 0. -/
theorem C10_counterexample :
    vehUpdate mfId (defaultConfig mfId) (1/10) none (eqSteerState (1/90)) =
      eqSteerState (1/100) ∧
    vehUpdate mfId (defaultConfig mfId) (1/10) none (eqSteerState (1/100)) =
      eqSteerState (1/100) ∧
    ((1 : ℚ)/100) ≠ 0 := by
  refine ⟨by decide, by decide, by decide⟩

set_option maxRecDepth 8000 in
/-- C10 (amended): `setControls` clamps the steering target to [-1,1] and
moves the current steering toward it without passing (so `|steering| ≤ 1` is
preserved); `update(dt)` never increases the steering magnitude and, when at
least one wheel is grounded and `|steering| > 0.01`, multiplies steering by
`(1 − steeringReturn·dt)` snapping magnitudes strictly below 0.01 to exactly
0; over successive `update`s with no `setControls`, steering therefore
settles into the dead zone `|steering| ≤ 0.01` within 44 grounded updates —
but it can land exactly on the ±0.01 boundary and stay there (see the
counterexample), so exact centering to 0 is not guaranteed. -/
theorem C10_amended (mf : MathFns) (s : VState) (st dt : ℚ)
    (gh : Option (ℚ → ℚ → ℚ)) (x : ℚ) :
    (min s.steering (max (-1) (min 1 st)) ≤
        (setControls (defaultConfig mf) s ⟨none, none, some st⟩).steering ∧
      (setControls (defaultConfig mf) s ⟨none, none, some st⟩).steering ≤
        max s.steering (max (-1) (min 1 st))) ∧
    (|s.steering| ≤ 1 →
      |(setControls (defaultConfig mf) s ⟨none, none, some st⟩).steering| ≤ 1) ∧
    (0 ≤ dt →
      |(vehUpdate mf (defaultConfig mf) dt gh s).steering| ≤ |s.steering|) ∧
    (0 ≤ dt → |s.steering| ≤ 1 →
      |(vehUpdate mf (defaultConfig mf) dt gh s).steering| ≤ 1) ∧
    (0 ≤ dt → dt ≤ 1/10 → 1/100 < |s.steering| →
      0 < wheelsOnGroundCount (updateSuspension (defaultConfig mf) s gh) →
      (vehUpdate mf (defaultConfig mf) dt gh s).steering =
        (if |s.steering * (1 - dt)| < 1/100 then 0 else s.steering * (1 - dt))) ∧
    (mf.sqrt 0 = 0 → mf.sqrt 1 = 1 → mf.sinHalf 0 = 0 → mf.cosHalf 0 = 1 →
      |x| ≤ 1 →
      |(updEqIter mf x 44).steering| ≤ 1/100 ∧
      updEqIter mf x 45 = updEqIter mf x 44) := by
  have hsp : (0 : ℚ) ≤ (defaultConfig mf).steeringSpeed := by norm_num [defaultConfig]
  have hbetween := setControls_steer_between (defaultConfig mf) hsp s st
  have hnoninc : 0 ≤ dt →
      |(vehUpdate mf (defaultConfig mf) dt gh s).steering| ≤ |s.steering| := by
    intro hdt
    rw [vehUpdate_steering]
    have hm : 0 ≤ min dt (1/10 : ℚ) := le_min hdt (by norm_num)
    have hm2 : min dt (1/10 : ℚ) ≤ 1/10 := min_le_right _ _
    have hret : (defaultConfig mf).steeringReturn = 1 := rfl
    rw [hret, one_mul]
    split_ifs with h1 h2
    · rw [abs_zero]
      exact abs_nonneg _
    · rw [abs_mul]
      have habs : |1 - min dt (1/10 : ℚ)| ≤ 1 := by
        rw [abs_le]
        constructor <;> linarith
      calc |s.steering| * |1 - min dt (1/10 : ℚ)| ≤ |s.steering| * 1 :=
            mul_le_mul_of_nonneg_left habs (abs_nonneg _)
        _ = |s.steering| := mul_one _
    · exact le_refl _
  refine ⟨hbetween, ?_, hnoninc, ?_, ?_, ?_⟩
  · intro hb
    rw [abs_le]
    have ht1 : (-1 : ℚ) ≤ max (-1) (min 1 st) := le_max_left _ _
    have ht2 : max (-1 : ℚ) (min 1 st) ≤ 1 := by
      apply max_le (by norm_num)
      exact (min_le_left _ _)
    rw [abs_le] at hb
    constructor
    · refine le_trans ?_ hbetween.1
      exact le_min hb.1 ht1
    · refine le_trans hbetween.2 ?_
      exact max_le hb.2 ht2
  · intro hdt hb
    exact le_trans (hnoninc hdt) hb
  · intro hdt hdt1 hst hground
    rw [vehUpdate_steering]
    have hret : (defaultConfig mf).steeringReturn = 1 := rfl
    rw [hret, one_mul, min_eq_left hdt1, if_pos ⟨hst, hground⟩]
  · intro hs0 hs1 hsin hcos hx
    have heq44 := updEqIter_eq mf hs0 hs1 hsin hcos x 44
    have heq45 := updEqIter_eq mf hs0 hs1 hsin hcos x 45
    have hb := steerStepIter_bound x hx 44
    have hpow : ((9 : ℚ)/10)^44 ≤ 1/100 := by norm_num
    have hmax : max ((9/10 : ℚ)^44) (1/100) = 1/100 := max_eq_right hpow
    rw [hmax] at hb
    have hsteer44 : (updEqIter mf x 44).steering = steerStepIter x 44 := by
      rw [heq44]; rfl
    constructor
    · rw [hsteer44]
      exact hb
    · rw [heq45, heq44]
      have : steerStepIter x 45 = steerStepIter x 44 := by
        rw [steerStepIter, steerStep, if_neg (not_lt.mpr hb)]
      rw [this]

/-- Witness for C10_amended at a concrete grounded state with steering 1/2,
a 0.05 s step and steering input 1. -/
theorem C10_amended_witness :
    (min (eqSteerState (1/2)).steering (max (-1) (min 1 1)) ≤
        (setControls (defaultConfig mfId) (eqSteerState (1/2))
          ⟨none, none, some 1⟩).steering ∧
      (setControls (defaultConfig mfId) (eqSteerState (1/2))
          ⟨none, none, some 1⟩).steering ≤
        max (eqSteerState (1/2)).steering (max (-1) (min 1 1))) ∧
    |(setControls (defaultConfig mfId) (eqSteerState (1/2))
        ⟨none, none, some 1⟩).steering| ≤ 1 ∧
    |(vehUpdate mfId (defaultConfig mfId) (1/20) none
        (eqSteerState (1/2))).steering| ≤ |(eqSteerState (1/2)).steering| ∧
    |(vehUpdate mfId (defaultConfig mfId) (1/20) none
        (eqSteerState (1/2))).steering| ≤ 1 ∧
    (vehUpdate mfId (defaultConfig mfId) (1/20) none (eqSteerState (1/2))).steering =
      (if |(eqSteerState (1/2)).steering * (1 - 1/20)| < 1/100 then 0
       else (eqSteerState (1/2)).steering * (1 - 1/20)) ∧
    (|(updEqIter mfId (1/2) 44).steering| ≤ 1/100 ∧
      updEqIter mfId (1/2) 45 = updEqIter mfId (1/2) 44) := by
  obtain ⟨h1, h2, h3, h4, h5, h6⟩ :=
    C10_amended mfId (eqSteerState (1/2)) 1 (1/20) none (1/2)
  refine ⟨h1, h2 (by decide), h3 (by norm_num), h4 (by norm_num) (by decide),
    h5 (by norm_num) (by norm_num) (by decide) (by decide), h6 rfl rfl rfl rfl (by decide)⟩

/-!
## General lap-closing behavior (claim C1, general part)

The in-order driving scenario on an arbitrary N-checkpoint track (checkpoint
i at (20i, 0, 0), index 0 the single start/finish entry) with `totalLaps = L`:
the race finishes at the N·L-th checkpoint pass, with `laps = L` and only
`L − 1` recorded lap times.
-/

/-- The canonical N-checkpoint track: checkpoint i at (20i, 0, 0), index 0 the
single start/finish entry. -/
def cpsN (N : ℕ) : List Checkpoint :=
  (List.range N).map (fun i => ⟨cpPos i, decide (i = 0)⟩)

/-- The first n inputs of the in-order driving scenario on an N-checkpoint
track: update j (1-based) uses deltaTime 1 s, wall clock 1000·j ms and the
position of checkpoint (j − 1) mod N. -/
def raceInputs (N n : ℕ) : List (ℚ × ℚ × Vec3) :=
  (List.range n).map (fun (j : ℕ) => (1, (((1000 * (j + 1) : ℕ)) : ℚ), cpPos (j % N)))

/-- Machine state after `init`, `startRace()` at 0 ms and the first n in-order
updates. -/
def raceStateAfter (N L n : ℕ) : CheckpointSystem :=
  (((CheckpointSystem.initSys (cpsN N) L).startRace 0).runUpdates (raceInputs N n)).1

/-- Invariant of the in-order run after n updates (for n ≤ N·L): the index is
n mod N, the laps counter is n div N, the race is finished exactly at the
N·L-th pass, `(n − 1) div N` lap times are recorded, and `bestLapTime` is
their minimum. -/
def raceInv (N L n : ℕ) (s : CheckpointSystem) : Prop :=
  s.checkpoints = cpsN N ∧ s.totalLaps = L ∧ s.isRaceStarted = true ∧
  s.isRaceFinished = decide (n = N * L) ∧ s.currentCheckpoint = n % N ∧
  s.laps = n / N ∧ s.lapTimes.length = (n - 1) / N ∧
  s.bestLapTime = s.lapTimes.min?

/-- Appending to a fold of `min`. -/
theorem foldlMinAppend (bs : List ℚ) (b a : ℚ) :
    List.foldl min b (bs ++ [a]) = min (List.foldl min b bs) a := by
  rw [List.foldl_append]
  rfl

/-- `min?` of a list with one element appended. -/
theorem minqAppend (l : List ℚ) (a : ℚ) :
    (l ++ [a]).min? =
      some (match l.min? with | none => a | some b => min b a) := by
  cases l with
  | nil => rfl
  | cons c cs =>
    simp only [List.cons_append, List.min?, foldlMinAppend]

/-- `lapCompleted` preserves the best-is-minimum invariant, appends exactly one
lap time and leaves the progression fields alone. -/
theorem lapCompleted_inv (s : CheckpointSystem)
    (h : s.bestLapTime = s.lapTimes.min?) :
    s.lapCompleted.1.bestLapTime = s.lapCompleted.1.lapTimes.min? ∧
    s.lapCompleted.1.lapTimes.length = s.lapTimes.length + 1 ∧
    s.lapCompleted.1.currentCheckpoint = s.currentCheckpoint ∧
    s.lapCompleted.1.laps = s.laps ∧
    s.lapCompleted.1.checkpoints = s.checkpoints ∧
    s.lapCompleted.1.totalLaps = s.totalLaps ∧
    s.lapCompleted.1.isRaceStarted = s.isRaceStarted ∧
    s.lapCompleted.1.isRaceFinished = s.isRaceFinished := by
  unfold CheckpointSystem.lapCompleted
  dsimp only
  refine ⟨?_, by simp, rfl, rfl, rfl, rfl, rfl, rfl⟩
  rw [minqAppend, h]
  cases hb : s.lapTimes.min? with
  | none => rfl
  | some b =>
    dsimp only
    rcases lt_or_le s.currentLapTime b with hlt | hle
    · rw [if_pos hlt, min_eq_right hlt.le]
    · rw [if_neg (not_lt.mpr hle), min_eq_left hle]

/-- While racing, an update within proximity of the current checkpoint is
`checkpointPassed` on the time-advanced state. -/
theorem update_racing (s : CheckpointSystem) (hst : s.isRaceStarted = true)
    (hfn : s.isRaceFinished = false) (dt now : ℚ) (pos : Vec3) (cp : Checkpoint)
    (hget : s.checkpoints[s.currentCheckpoint]? = some cp)
    (hprox : isVehicleAtCheckpoint pos cp = true) :
    s.update dt now pos =
      ({ s with raceTime := (now - s.raceStartTime) / 1000,
                currentLapTime := s.currentLapTime + dt }
        : CheckpointSystem).checkpointPassed := by
  have hcond : (!s.isRaceStarted || s.isRaceFinished) = false := by
    rw [hst, hfn]
    rfl
  unfold CheckpointSystem.update
  rw [hcond]
  simp only [Bool.false_eq_true, if_false, ite_false, reduceIte]
  rw [hget]
  dsimp only
  rw [hprox]
  simp only [if_true, reduceIte]

/-- One in-order update preserves the run invariant (and advances it). -/
theorem raceInv_step (N L n : ℕ) (hN : 1 ≤ N) (hL : 1 ≤ L) (hn : n < N * L)
    (s : CheckpointSystem) (hs : raceInv N L n s) (dt now : ℚ) :
    raceInv N L (n + 1) (s.update dt now (cpPos (n % N))).1 := by
  obtain ⟨hcps, hTL, hstart, hfin, hcc, hlaps, hlen, hbest⟩ := hs
  have hNpos : 0 < N := hN
  have hfin2 : s.isRaceFinished = false := by
    rw [hfin, decide_eq_false_iff_not]
    exact Nat.ne_of_lt hn
  have hmodlt : n % N < N := Nat.mod_lt _ hNpos
  have hlenN : (cpsN N).length = N := by simp [cpsN]
  have hget : (cpsN N)[n % N]? = some ⟨cpPos (n % N), decide (n % N = 0)⟩ := by
    simp [cpsN, hmodlt]
  have hprox : isVehicleAtCheckpoint (cpPos (n % N))
      ⟨cpPos (n % N), decide (n % N = 0)⟩ = true := by
    simp [isVehicleAtCheckpoint, Vec3.distSq, Vec3.sub, Vec3.lengthSq, Vec3.dot]
  have hsuccmod : (n % N + 1) % N = (n + 1) % N := by
    conv_rhs => rw [Nat.add_mod]
    rcases Nat.eq_or_lt_of_le hN with h1 | h2
    · simp [← h1]
    · rw [Nat.mod_eq_of_lt h2]
  have hle1 : n + 1 ≤ N * L := hn
  -- the time-advanced state s1
  set s1 : CheckpointSystem :=
    { s with raceTime := (now - s.raceStartTime) / 1000,
             currentLapTime := s.currentLapTime + dt } with hs1
  have hs1cps : s1.checkpoints = cpsN N := hcps
  have hs1cc : s1.currentCheckpoint = n % N := hcc
  have hs1laps : s1.laps = n / N := hlaps
  have hs1len : s1.lapTimes.length = (n - 1) / N := hlen
  have hs1best : s1.bestLapTime = s1.lapTimes.min? := hbest
  have hs1TL : s1.totalLaps = L := hTL
  -- reduce the update to checkpointPassed of the time-advanced state
  have hget2 : s.checkpoints[s.currentCheckpoint]?
      = some ⟨cpPos (n % N), decide (n % N = 0)⟩ := by
    rw [hcps, hcc]
    exact hget
  have hupd := update_racing s hstart hfin2 dt now (cpPos (n % N)) _ hget2 hprox
  rw [hupd, ← hs1]
  -- now reason about checkpointPassed on s1
  unfold CheckpointSystem.checkpointPassed
  rw [hs1cps, hs1cc, hget]
  dsimp only
  rw [hs1laps]
  by_cases hsf : n % N = 0
  · by_cases hlp : 0 < n / N
    · -- start/finish re-crossing: a lap is completed
      have hdvd : N ∣ n := (Nat.dvd_iff_mod_eq_zero).mpr hsf
      simp only [hsf, hlp, decide_True, Bool.true_and, if_true, reduceIte,
        decide_eq_true_eq]
      obtain ⟨hb1, hb2, hb3, hb4, hb5, hb6, hb7, hb8⟩ := lapCompleted_inv s1 hs1best
      rw [hb3, hs1cc, hb5, hs1cps, hlenN, hsuccmod, hb4, hs1laps]
      have hlen1 : s1.lapCompleted.1.lapTimes.length = (n - 1) / N + 1 := by
        rw [hb2, hs1len]
      have hlennew : (n - 1) / N + 1 = n / N := by
        have hnz : n ≠ 0 := by
          intro h0
          rw [h0] at hlp
          simp at hlp
        have hn1 : n - 1 + 1 = n := by omega
        conv_rhs => rw [← hn1, Nat.succ_div]
        have hdvd2 : N ∣ n - 1 + 1 := by rw [hn1]; exact hdvd
        rw [if_pos hdvd2]
      by_cases hw : (n + 1) % N = 0
      · by_cases hfin3 : L ≤ n / N + 1
        · -- the race finishes here
          have hdvd1 : N ∣ n + 1 := (Nat.dvd_iff_mod_eq_zero).mpr hw
          have hdiv1 : (n + 1) / N = n / N + 1 := by
            rw [Nat.succ_div, if_pos hdvd1]
          have heq : n + 1 = N * L := by
            have h1 : N * L ≤ N * ((n + 1) / N) := Nat.mul_le_mul_left N (by omega)
            have h2 : N * ((n + 1) / N) ≤ n + 1 := Nat.mul_div_le (n + 1) N
            omega
          rw [if_pos hw,
            if_pos (show s1.lapCompleted.1.totalLaps ≤ n / N + 1 by
              rw [hb6, hs1TL]; exact hfin3)]
          unfold CheckpointSystem.raceFinished
          dsimp only
          refine ⟨rfl, hb6.trans hs1TL, hb7.trans hstart, ?_, rfl, hdiv1.symm, ?_, hb1⟩
          · simp [heq]
          · rw [hlen1, hlennew, Nat.add_sub_cancel]
        · -- wrap without finishing
          have hdvd1 : N ∣ n + 1 := (Nat.dvd_iff_mod_eq_zero).mpr hw
          have hdiv1 : (n + 1) / N = n / N + 1 := by
            rw [Nat.succ_div, if_pos hdvd1]
          have hne : n + 1 ≠ N * L := by
            intro hcon
            have : (n + 1) / N = L := by
              rw [hcon, Nat.mul_div_cancel_left L hNpos]
            omega
          rw [if_pos hw,
            if_neg (show ¬ s1.lapCompleted.1.totalLaps ≤ n / N + 1 by
              rw [hb6, hs1TL]; exact hfin3)]
          dsimp only
          refine ⟨rfl, hb6.trans hs1TL, hb7.trans hstart, ?_, rfl, hdiv1.symm, ?_, hb1⟩
          · rw [hb8, show s1.isRaceFinished = false from hfin2]
            simp [hne]
          · rw [hlen1, hlennew, Nat.add_sub_cancel]
      · -- no wrap (only possible when N ≥ 2)
        have hdiv1 : (n + 1) / N = n / N := by
          rw [Nat.succ_div, if_neg (fun hc => hw ((Nat.dvd_iff_mod_eq_zero).mp hc)),
            Nat.add_zero]
        have hne : n + 1 ≠ N * L := fun hcon => hw (hcon ▸ Nat.mul_mod_right N L)
        rw [if_neg hw]
        dsimp only
        refine ⟨rfl, hb6.trans hs1TL, hb7.trans hstart, ?_, rfl, hdiv1.symm, ?_, hb1⟩
        · rw [hb8, show s1.isRaceFinished = false from hfin2]
          simp [hne]
        · rw [hlen1, hlennew, Nat.add_sub_cancel]
    · -- first crossing of start/finish: no lap completes
      push_neg at hlp
      have hn0 : n / N = 0 := Nat.le_zero.mp hlp
      have hzero : n = 0 := by
        have hdm := Nat.div_add_mod n N
        rw [hn0, hsf] at hdm
        omega
      subst hzero
      simp only [hsf, decide_True, Bool.true_and, decide_eq_true_eq]
      rw [if_neg (by simp : ¬ (0 : ℕ) < 0 / N)]
      dsimp only
      rw [hs1cc, hs1cps, hlenN, hsuccmod, hs1laps]
      by_cases hw : (0 + 1) % N = 0
      · -- single-checkpoint track: the very first pass wraps
        have hN1 : N = 1 := by
          have h10 : 1 % N = 0 := hw
          rcases Nat.eq_or_lt_of_le hN with h1 | h2
          · omega
          · rw [Nat.mod_eq_of_lt h2] at h10
            omega
        subst hN1
        rw [if_pos hw]
        by_cases hfin3 : L ≤ 1
        · have hLeq : L = 1 := le_antisymm hfin3 hL
          subst hLeq
          rw [if_pos (show s1.totalLaps ≤ 0 / 1 + 1 by rw [hs1TL])]
          unfold CheckpointSystem.raceFinished
          dsimp only
          exact ⟨rfl, hs1TL, hstart, rfl, rfl, rfl, hs1len, hs1best⟩
        · rw [if_neg (show ¬ s1.totalLaps ≤ 0 / 1 + 1 by rw [hs1TL]; omega)]
          dsimp only
          refine ⟨rfl, hs1TL, hstart, ?_, rfl, rfl, ?_, hs1best⟩
          · rw [show s1.isRaceFinished = false from hfin2]
            simp
            omega
          · exact hs1len
      · have hdiv1 : (0 + 1) / N = 0 / N := by
          rw [Nat.succ_div, if_neg (fun hc => hw ((Nat.dvd_iff_mod_eq_zero).mp hc)),
            Nat.add_zero]
        have hne : (0 : ℕ) + 1 ≠ N * L := fun hcon => hw (hcon ▸ Nat.mul_mod_right N L)
        rw [if_neg hw]
        dsimp only
        refine ⟨rfl, hs1TL, hstart, ?_, rfl, hdiv1.symm, ?_, hs1best⟩
        · rw [show s1.isRaceFinished = false from hfin2]
          simp [hne]
        · exact hs1len
  · -- an ordinary checkpoint, no lap logic
    simp only [hsf, decide_False, Bool.false_and, Bool.false_eq_true, if_false,
      ite_false, reduceIte]
    rw [hs1cc, hs1cps, hlenN, hsuccmod, hs1laps]
    have hnz : n ≠ 0 := by
      intro h0
      exact hsf (by rw [h0]; exact Nat.zero_mod N)
    have hn1 : n - 1 + 1 = n := by omega
    have hlen7 : (n - 1) / N = n / N := by
      conv_rhs => rw [← hn1, Nat.succ_div]
      rw [if_neg (fun hc => hsf ((Nat.dvd_iff_mod_eq_zero).mp (hn1 ▸ hc))), Nat.add_zero]
    by_cases hw : (n + 1) % N = 0
    · by_cases hfin3 : L ≤ n / N + 1
      · have hdvd1 : N ∣ n + 1 := (Nat.dvd_iff_mod_eq_zero).mpr hw
        have hdiv1 : (n + 1) / N = n / N + 1 := by
          rw [Nat.succ_div, if_pos hdvd1]
        have heq : n + 1 = N * L := by
          have h1 : N * L ≤ N * ((n + 1) / N) := Nat.mul_le_mul_left N (by omega)
          have h2 : N * ((n + 1) / N) ≤ n + 1 := Nat.mul_div_le (n + 1) N
          omega
        rw [if_pos hw,
          if_pos (show s1.totalLaps ≤ n / N + 1 by rw [hs1TL]; exact hfin3)]
        unfold CheckpointSystem.raceFinished
        dsimp only
        refine ⟨rfl, hs1TL, hstart, ?_, rfl, hdiv1.symm, ?_, hs1best⟩
        · simp [heq]
        · rw [hs1len, hlen7, Nat.add_sub_cancel]
      · have hdvd1 : N ∣ n + 1 := (Nat.dvd_iff_mod_eq_zero).mpr hw
        have hdiv1 : (n + 1) / N = n / N + 1 := by
          rw [Nat.succ_div, if_pos hdvd1]
        have hne : n + 1 ≠ N * L := by
          intro hcon
          have : (n + 1) / N = L := by
            rw [hcon, Nat.mul_div_cancel_left L hNpos]
          omega
        rw [if_pos hw,
          if_neg (show ¬ s1.totalLaps ≤ n / N + 1 by rw [hs1TL]; exact hfin3)]
        dsimp only
        refine ⟨rfl, hs1TL, hstart, ?_, rfl, hdiv1.symm, ?_, hs1best⟩
        · rw [show s1.isRaceFinished = false from hfin2]
          simp [hne]
        · rw [hs1len, hlen7, Nat.add_sub_cancel]
    · have hdiv1 : (n + 1) / N = n / N := by
        rw [Nat.succ_div, if_neg (fun hc => hw ((Nat.dvd_iff_mod_eq_zero).mp hc)),
          Nat.add_zero]
      have hne : n + 1 ≠ N * L := fun hcon => hw (hcon ▸ Nat.mul_mod_right N L)
      rw [if_neg hw]
      dsimp only
      refine ⟨rfl, hs1TL, hstart, ?_, rfl, hdiv1.symm, ?_, hs1best⟩
      · rw [show s1.isRaceFinished = false from hfin2]
        simp [hne]
      · rw [hs1len, hlen7, Nat.add_sub_cancel]

/-- The first projection of the `runUpdates` fold ignores the accumulated
event list. -/
theorem runUpdatesAux (l : List (ℚ × ℚ × Vec3)) :
    ∀ p : CheckpointSystem × List RaceEvent,
      (l.foldl (fun acc inp => ((acc.1.update inp.1 inp.2.1 inp.2.2).1,
          acc.2 ++ (acc.1.update inp.1 inp.2.1 inp.2.2).2)) p).1
        = l.foldl (fun t inp => (t.update inp.1 inp.2.1 inp.2.2).1) p.1 := by
  induction l with
  | nil =>
    intro p
    rfl
  | cons a l ih =>
    intro p
    simp only [List.foldl_cons]
    rw [ih]

/-- `runUpdates` as a state-only fold. -/
theorem runUpdates_fst (s : CheckpointSystem) (l : List (ℚ × ℚ × Vec3)) :
    (s.runUpdates l).1
      = l.foldl (fun t inp => (t.update inp.1 inp.2.1 inp.2.2).1) s := by
  unfold CheckpointSystem.runUpdates
  exact runUpdatesAux l (s, [])

/-- Unrolling the in-order run one update at a time. -/
theorem raceStateAfter_succ (N L n : ℕ) :
    raceStateAfter N L (n + 1)
      = ((raceStateAfter N L n).update 1 (((1000 * (n + 1) : ℕ)) : ℚ)
          (cpPos (n % N))).1 := by
  unfold raceStateAfter raceInputs
  rw [runUpdates_fst, runUpdates_fst, List.range_succ, List.map_append,
    List.foldl_append]
  rfl

/-- The run invariant holds at the start of the race. -/
theorem raceInv_zero (N L : ℕ) (hN : 1 ≤ N) (hL : 1 ≤ L) :
    raceInv N L 0 (raceStateAfter N L 0) := by
  have hpos : 0 < N * L := Nat.mul_pos hN hL
  have hLne : ¬ (L = 0) := by omega
  unfold raceStateAfter raceInputs
  simp only [List.range_zero, List.map_nil]
  refine ⟨?_, ?_, ?_, ?_, ?_, ?_, ?_, ?_⟩ <;>
    simp [CheckpointSystem.runUpdates, CheckpointSystem.startRace,
      CheckpointSystem.initSys, CheckpointSystem.reset, hLne,
      Nat.ne_of_lt hpos]

/-- The run invariant holds after every prefix of the in-order run. -/
theorem raceInv_holds (N L : ℕ) (hN : 1 ≤ N) (hL : 1 ≤ L) :
    ∀ n, n ≤ N * L → raceInv N L n (raceStateAfter N L n) := by
  intro n
  induction n with
  | zero =>
    intro _
    exact raceInv_zero N L hN hL
  | succ k ih =>
    intro hk
    have hklt : k < N * L := hk
    rw [raceStateAfter_succ]
    exact raceInv_step N L k hN hL hklt (raceStateAfter N L k) (ih hklt.le) 1
      (((1000 * (k + 1) : ℕ)) : ℚ)

/-- Outcome of the full in-order race: finished at the N·L-th pass, with the
laps counter at `totalLaps`, `totalLaps - 1` recorded lap times, and
`bestLapTime` their minimum. -/
theorem raceFinal (N L : ℕ) (hN : 1 ≤ N) (hL : 1 ≤ L) :
    (raceStateAfter N L (N * L)).isRaceFinished = true ∧
    (raceStateAfter N L (N * L)).laps = L ∧
    (raceStateAfter N L (N * L)).lapTimes.length = L - 1 ∧
    (raceStateAfter N L (N * L)).bestLapTime
      = (raceStateAfter N L (N * L)).lapTimes.min? := by
  obtain ⟨-, -, -, h4, -, h6, h7, h8⟩ := raceInv_holds N L hN hL (N * L) le_rfl
  refine ⟨?_, ?_, ?_, h8⟩
  · rw [h4]
    simp
  · rw [h6, Nat.mul_div_cancel_left L (by omega : 0 < N)]
  · rw [h7]
    have hsum : N * (L - 1) + N = N * L := by
      rw [← Nat.mul_succ]
      congr 1
      omega
    have hrw : N * L - 1 = N * (L - 1) + (N - 1) := by omega
    rw [hrw, Nat.mul_add_div (by omega : 0 < N),
      Nat.div_eq_of_lt (by omega : N - 1 < N), Nat.add_zero]

/-- C1 (amended): on the canonical N-checkpoint track with one start/finish
entry at index 0, driving all checkpoints in order `totalLaps` times finishes
the race exactly at the N·totalLaps-th checkpoint pass (the wrap after the last
checkpoint of the final lap), with the laps counter at `totalLaps`, exactly
`totalLaps - 1` recorded lap times (not `totalLaps`), and `bestLapTime` their
minimum.  In the concrete N=4, totalLaps=2 scenario: not finished after 7
updates, finished at the 8th, `lapTimes = [5]` (one entry), `bestLapTime = 5`,
laps = 2, and the 9th and 10th updates change nothing and fire no further
events. -/
theorem C1_amended :
    (∀ N L : ℕ, 1 ≤ N → 1 ≤ L →
      (raceStateAfter N L (N * L)).isRaceFinished = true ∧
      (raceStateAfter N L (N * L)).laps = L ∧
      (raceStateAfter N L (N * L)).lapTimes.length = L - 1 ∧
      (raceStateAfter N L (N * L)).bestLapTime
        = (raceStateAfter N L (N * L)).lapTimes.min?) ∧
    (scenarioAfter 7).1.isRaceFinished = false ∧
    (scenarioAfter 8).1.isRaceFinished = true ∧
    (scenarioAfter 8).1.lapTimes = [5] ∧
    (scenarioAfter 8).1.bestLapTime = some 5 ∧
    (scenarioAfter 8).1.laps = 2 ∧
    (scenarioAfter 10).1 = (scenarioAfter 8).1 ∧
    (scenarioAfter 10).2 = (scenarioAfter 8).2 := by
  refine ⟨raceFinal, by decide, by decide, by decide, by decide, by decide,
    by decide, by decide⟩

/-- Witness for C1 (amended): the general part instantiated at N = 4,
totalLaps = 2. -/
theorem C1_amended_witness :
    1 ≤ 4 ∧ 1 ≤ 2 ∧
    ((raceStateAfter 4 2 (4 * 2)).isRaceFinished = true ∧
     (raceStateAfter 4 2 (4 * 2)).laps = 2 ∧
     (raceStateAfter 4 2 (4 * 2)).lapTimes.length = 2 - 1 ∧
     (raceStateAfter 4 2 (4 * 2)).bestLapTime
       = (raceStateAfter 4 2 (4 * 2)).lapTimes.min?) :=
  ⟨by decide, by decide, C1_amended.1 4 2 (by decide) (by decide)⟩

end VelocityRush
